import Mathlib

/-!
Shallow embedding of the kazu-flutter-store-backend cart/checkout core
(Hono + Drizzle + PostgreSQL) and proofs about its claims.

Modelling conventions:
- the relational store (tables `users`, `products`, `carts`, `cart_items`,
  `orders`, `order_items`, `order_status_history` of src/src/db/schema)
  is a record of lists of rows; `serial` primary keys are modelled by
  per-table `next…Id` counters;
- timestamp columns (`createdAt`, `updatedAt`, `expiresAt`) are omitted:
  no verified claim depends on time, so the expiration "touch" updates
  performed by the handlers are identity on the modelled state;
- `decimal` money columns are modelled as `Rat` (exact 2-decimal
  arithmetic); `integer` quantity/stock columns as `Int` (JS numbers on
  integral values);
- product image rows, slugs, descriptions and the `isActive` flag are
  omitted: no claim mentions them;
- each HTTP handler becomes a function from the store (plus its request
  data) to the new store paired with its response; an uncaught JS
  exception (there is no try/catch in the login or checkout handlers)
  is modelled as an `internalDbError` outcome, reproducing the Hono
  `onError` handler of src/src/middleware/error-handler.ts (HTTP 500);
- external collaborators: bcrypt password comparison is passed in as a
  function parameter, JWT signing is modelled as a pure encoding of the
  payload, and the random order-number generator is modelled by passing
  the generated number as an argument.
-/

/-- Status enum `order_status` of the schema. -/
inductive OrderStatus where
  | pending
  | processing
  | shipped
  | delivered
  | cancelled
deriving DecidableEq, Repr

/-- Row of the `users` table (auth-relevant columns). -/
structure UserRow where
  id : Nat
  email : String
  passwordHash : String
  role : String
deriving DecidableEq, Repr

/-- Row of the `products` table (claim-relevant columns). -/
structure Product where
  id : Nat
  name : String
  price : Rat
  stockQuantity : Int
deriving DecidableEq, Repr

/-- Row of the `carts` table: `user_id` and `session_id` are both
nullable columns. -/
structure Cart where
  id : Nat
  userId : Option Nat
  sessionId : Option String
deriving DecidableEq, Repr

/-- Row of the `cart_items` table. -/
structure CartItem where
  id : Nat
  cartId : Nat
  productId : Nat
  quantity : Int
deriving DecidableEq, Repr

/-- Row of the `orders` table (claim-relevant columns). -/
structure Order where
  id : Nat
  userId : Option Nat
  orderNumber : String
  totalAmount : Rat
  status : OrderStatus
  shippingAddress : Option String
deriving DecidableEq, Repr

/-- Row of the `order_items` table: the frozen snapshot of a cart line. -/
structure OrderItem where
  id : Nat
  orderId : Nat
  productId : Option Nat
  quantity : Int
  priceAtTime : Rat
  productName : Option String
deriving DecidableEq, Repr

/-- Row of the append-only `order_status_history` table. -/
structure StatusEvent where
  id : Nat
  orderId : Nat
  status : OrderStatus
  notes : Option String
deriving DecidableEq, Repr

/-- The persistent store: one list per table plus serial-id counters. -/
structure Db where
  users : List UserRow
  products : List Product
  carts : List Cart
  cartItems : List CartItem
  orders : List Order
  orderItems : List OrderItem
  orderStatusHistory : List StatusEvent
  nextCartId : Nat
  nextCartItemId : Nat
  nextOrderId : Nat
  nextOrderItemId : Nat
  nextStatusId : Nat
deriving DecidableEq, Repr

/-- Request identity of a cart endpoint caller: a verified JWT user id, or
the `session_id` cookie (src/src/routes : `getUserIdFromToken` /
`getOrCreateSessionId`). -/
inductive Identity where
  | user (id : Nat)
  | session (token : String)
deriving DecidableEq, Repr

/-- The distinct error responses produced by the modelled handlers.  Each
constructor corresponds to one literal `c.json({success:false, error:…})`
response in the source (see `ApiError.message` and `ApiError.httpStatus`). -/
inductive ApiError where
  | productNotFound
  | insufficientStock
  | insufficientStockCombined
  | cartItemNotFound
  | cartNotFoundCheckout
  | cartEmpty
  | insufficientStockCheckout (productName : String) (available : Int) (requested : Int)
  | orderNotFound
  | forbidden
  | invalidCredentials
  | internalDbError
deriving DecidableEq, Repr

/-- Literal response message of each error, as written in the source. -/
def ApiError.message : ApiError → String
  | .productNotFound => "Product not found"
  | .insufficientStock => "Insufficient stock"
  | .insufficientStockCombined => "Insufficient stock for updated quantity"
  | .cartItemNotFound => "Cart item not found"
  | .cartNotFoundCheckout => "Cart not found"
  | .cartEmpty => "Cart is empty"
  | .insufficientStockCheckout n a r =>
      s!"Insufficient stock for {n}. Available: {a}, Requested: {r}"
  | .orderNotFound => "Order not found"
  | .forbidden => "Forbidden: Access denied"
  | .invalidCredentials => "Invalid email or password"
  | .internalDbError => "Internal server error"

/-- HTTP status of each error response, as written in the source
(`internalDbError` is the uncaught-exception path through the global
`errorHandler`). -/
def ApiError.httpStatus : ApiError → Nat
  | .productNotFound => 404
  | .insufficientStock => 400
  | .insufficientStockCombined => 400
  | .cartItemNotFound => 404
  | .cartNotFoundCheckout => 400
  | .cartEmpty => 400
  | .insufficientStockCheckout _ _ _ => 400
  | .orderNotFound => 404
  | .forbidden => 403
  | .invalidCredentials => 401
  | .internalDbError => 500

/-! ### Row lookups (drizzle `select … where` / `findFirst`) -/

/-- Drizzle `select().from(products).where(eq(products.id, pid))`, first row. -/
def findProduct (db : Db) (pid : Nat) : Option Product :=
  db.products.find? (fun p => p.id == pid)

/-- Drizzle `select().from(carts).where(eq(carts.userId, uid))`, first row. -/
def findCartByUser (db : Db) (uid : Nat) : Option Cart :=
  db.carts.find? (fun c => c.userId == some uid)

/-- Drizzle `select().from(carts).where(eq(carts.sessionId, sid))`, first row. -/
def findCartBySession (db : Db) (sid : String) : Option Cart :=
  db.carts.find? (fun c => c.sessionId == some sid)

/-- Cart lookup by caller identity, as each cart handler does it. -/
def findCartByIdentity (db : Db) : Identity → Option Cart
  | .user uid => findCartByUser db uid
  | .session sid => findCartBySession db sid

/-- Login's guest-cart lookup:
`and(eq(carts.sessionId, sessionId), isNull(carts.userId))`. -/
def findGuestCart (db : Db) (sid : String) : Option Cart :=
  db.carts.find? (fun c => c.sessionId == some sid && c.userId == none)

/-- Drizzle `select().from(cartItems).where(eq(cartItems.cartId, cid))`. -/
def itemsOfCart (db : Db) (cid : Nat) : List CartItem :=
  db.cartItems.filter (fun i => i.cartId == cid)

/-- Lookup of a cart line by `(cartId, productId)`. -/
def findCartItemByProduct (db : Db) (cid pid : Nat) : Option CartItem :=
  db.cartItems.find? (fun i => i.cartId == cid && i.productId == pid)

/-- Ownership-checked line lookup:
`and(eq(cartItems.id, itemId), eq(cartItems.cartId, cart.id))`. -/
def findCartItemByIdAndCart (db : Db) (itemId cid : Nat) : Option CartItem :=
  db.cartItems.find? (fun i => i.id == itemId && i.cartId == cid)

/-- Drizzle `db.query.users.findFirst({where: eq(users.email, email)})`. -/
def findUserByEmail (db : Db) (email : String) : Option UserRow :=
  db.users.find? (fun u => u.email == email)

/-- Drizzle `select().from(orders).where(eq(orders.id, oid))`, first row. -/
def findOrder (db : Db) (oid : Nat) : Option Order :=
  db.orders.find? (fun o => o.id == oid)

/-! ### Row mutations (drizzle `insert` / `update` / `delete`) -/

/-- Insert a cart row (serial id from the counter). -/
def insertCart (db : Db) (uid : Option Nat) (sid : Option String) : Db × Cart :=
  let c : Cart := { id := db.nextCartId, userId := uid, sessionId := sid }
  ({ db with carts := db.carts ++ [c], nextCartId := db.nextCartId + 1 }, c)

/-- Insert a cart line row. -/
def insertCartItem (db : Db) (cid pid : Nat) (q : Int) : Db × CartItem :=
  let i : CartItem := { id := db.nextCartItemId, cartId := cid, productId := pid, quantity := q }
  ({ db with cartItems := db.cartItems ++ [i], nextCartItemId := db.nextCartItemId + 1 }, i)

/-- Drizzle `update(cartItems).set({quantity}).where(eq(cartItems.id, itemId))`. -/
def updateCartItemQty (db : Db) (itemId : Nat) (q : Int) : Db :=
  { db with cartItems :=
      db.cartItems.map (fun i => if i.id == itemId then { i with quantity := q } else i) }

/-- Drizzle `delete(cartItems).where(eq(cartItems.id, itemId))`. -/
def deleteCartItemById (db : Db) (itemId : Nat) : Db :=
  { db with cartItems := db.cartItems.filter (fun i => !(i.id == itemId)) }

/-- Drizzle `delete(cartItems).where(eq(cartItems.cartId, cid))`. -/
def deleteCartItemsOfCart (db : Db) (cid : Nat) : Db :=
  { db with cartItems := db.cartItems.filter (fun i => !(i.cartId == cid)) }

/-- Drizzle `delete(carts).where(eq(carts.id, cid))`. -/
def deleteCart (db : Db) (cid : Nat) : Db :=
  { db with carts := db.carts.filter (fun c => !(c.id == cid)) }

/-- Drizzle `update(products).set({stockQuantity}).where(eq(products.id, pid))`. -/
def setProductStock (db : Db) (pid : Nat) (q : Int) : Db :=
  { db with products :=
      db.products.map (fun p => if p.id == pid then { p with stockQuantity := q } else p) }

/-! ### Cart view (`buildCartResponse` of the cart routes) -/

/-- One formatted item of the cart view (product image omitted). -/
structure CartViewItem where
  id : Nat
  productId : Nat
  productName : String
  price : Rat
  quantity : Int
  subtotal : Rat
deriving DecidableEq, Repr

/-- The cart view `{id, items, itemCount, total}` returned by every cart
mutation (`id` is `null` in the clear-cart response). -/
structure CartView where
  id : Option Nat
  items : List CartViewItem
  itemCount : Int
  total : Rat
deriving DecidableEq, Repr

/-- Source `buildCartResponse`: inner-join of the cart's lines with
`products`, live price, per-line subtotal, item count and grand total. -/
def buildCartResponse (db : Db) (cid : Nat) : CartView :=
  let items := (itemsOfCart db cid).filterMap (fun i =>
    (findProduct db i.productId).map (fun p =>
      ({ id := i.id, productId := p.id, productName := p.name, price := p.price,
         quantity := i.quantity, subtotal := p.price * (i.quantity : Rat) } : CartViewItem)))
  { id := some cid
    items := items
    itemCount := items.foldl (fun s it => s + it.quantity) 0
    total := items.foldl (fun s it => s + it.subtotal) 0 }

/-- The literal `{id: null, items: [], itemCount: 0, total: 0}` response of
the clear-cart handler. -/
def emptyCartView : CartView :=
  { id := none, items := [], itemCount := 0, total := 0 }

/-! ### Cart handlers (cart routes of src/src/routes) -/

/-- Source `getOrCreateCart`: find the cart for the caller's identity
(user id when authenticated, else session cookie); create it when absent.
The expiration "touch" of the found branch only writes unmodelled
timestamp columns. -/
def getOrCreateCart (db : Db) : Identity → Db × Cart
  | .user uid =>
      match findCartByUser db uid with
      | some c => (db, c)
      | none => insertCart db (some uid) none
  | .session sid =>
      match findCartBySession db sid with
      | some c => (db, c)
      | none => insertCart db none (some sid)

/-- Source `POST /cart/items` handler: validate the product and its stock,
resolve the cart, then either bump the existing line for that product
(re-validating the combined quantity) or insert a new line. -/
def addToCart (db : Db) (ident : Identity) (productId : Nat) (quantity : Int) :
    Db × Except ApiError CartView :=
  match findProduct db productId with
  | none => (db, .error .productNotFound)
  | some product =>
    if product.stockQuantity < quantity then
      (db, .error .insufficientStock)
    else
      let (db1, cart) := getOrCreateCart db ident
      match findCartItemByProduct db1 cart.id productId with
      | some existing =>
          let newQuantity := existing.quantity + quantity
          if product.stockQuantity < newQuantity then
            (db1, .error .insufficientStockCombined)
          else
            let db2 := updateCartItemQty db1 existing.id newQuantity
            (db2, .ok (buildCartResponse db2 cart.id))
      | none =>
          let db2 := (insertCartItem db1 cart.id productId quantity).1
          (db2, .ok (buildCartResponse db2 cart.id))

/-- Source `PUT /cart/items/:id` handler: resolve the cart (creating one
when absent), require the line to belong to it, validate stock, update. -/
def updateCartItem (db : Db) (ident : Identity) (itemId : Nat) (quantity : Int) :
    Db × Except ApiError CartView :=
  let (db1, cart) := getOrCreateCart db ident
  match findCartItemByIdAndCart db1 itemId cart.id with
  | none => (db1, .error .cartItemNotFound)
  | some cartItem =>
    match findProduct db1 cartItem.productId with
    | none => (db1, .error .productNotFound)
    | some product =>
      if product.stockQuantity < quantity then
        (db1, .error .insufficientStock)
      else
        let db2 := updateCartItemQty db1 itemId quantity
        (db2, .ok (buildCartResponse db2 cart.id))

/-- Source `DELETE /cart/items/:id` handler. -/
def removeCartItem (db : Db) (ident : Identity) (itemId : Nat) :
    Db × Except ApiError CartView :=
  let (db1, cart) := getOrCreateCart db ident
  match findCartItemByIdAndCart db1 itemId cart.id with
  | none => (db1, .error .cartItemNotFound)
  | some _ =>
      let db2 := deleteCartItemById db1 itemId
      (db2, .ok (buildCartResponse db2 cart.id))

/-- Source `DELETE /cart` handler: when a cart for the identity exists,
delete its lines and the cart row; always answer the empty cart view. -/
def clearCart (db : Db) (ident : Identity) : Db × CartView :=
  match findCartByIdentity db ident with
  | some cart => (deleteCart (deleteCartItemsOfCart db cart.id) cart.id, emptyCartView)
  | none => (db, emptyCartView)

/-! ### Checkout orchestrator (src/src/routes/checkout.ts) -/

/-- The checkout handler's join of the cart's lines with `products`
(`innerJoin(products, eq(cartItems.productId, products.id))`). -/
def joinedItems (db : Db) (cid : Nat) : List (CartItem × Product) :=
  (itemsOfCart db cid).filterMap (fun i =>
    (findProduct db i.productId).map (fun p => (i, p)))

/-- The handler's accumulation `totalAmount += Number(price) * quantity`. -/
def checkoutTotal (joined : List (CartItem × Product)) : Rat :=
  joined.foldl (fun a ip => a + ip.2.price * (ip.1.quantity : Rat)) 0

/-- Drizzle `select … from(orderItems).where(eq(orderItems.orderId, oid))`. -/
def orderItemsOfOrder (db : Db) (oid : Nat) : List OrderItem :=
  db.orderItems.filter (fun i => i.orderId == oid)

/-- Drizzle `select … from(orderStatusHistory).where(… orderId …)` ordered
by creation time (= insertion order of the list). -/
def statusHistoryOfOrder (db : Db) (oid : Nat) : List StatusEvent :=
  db.orderStatusHistory.filter (fun e => e.orderId == oid)

/-- The bulk `insert(orderItems).values(orderItemsData)` of checkout: one
snapshot row per joined cart line, serial ids. -/
def insertOrderItems (db : Db) (oid : Nat) (joined : List (CartItem × Product)) : Db :=
  { db with
    orderItems := db.orderItems ++ joined.mapIdx (fun k ip =>
      { id := db.nextOrderItemId + k, orderId := oid, productId := some ip.2.id,
        quantity := ip.1.quantity, priceAtTime := ip.2.price,
        productName := some ip.2.name }),
    nextOrderItemId := db.nextOrderItemId + joined.length }

/-- The per-item stock update loop of checkout: each product's stock is set
to the join-time stock minus the purchased quantity. -/
def decrementStocks (db : Db) (joined : List (CartItem × Product)) : Db :=
  joined.foldl (fun acc ip => setProductStock acc ip.2.id (ip.2.stockQuantity - ip.1.quantity)) db

/-- The order view returned by the checkout handler. -/
structure OrderView where
  id : Nat
  orderNumber : String
  status : OrderStatus
  totalAmount : Rat
  shippingAddress : String
  items : List OrderItem
  statusHistory : List StatusEvent
deriving DecidableEq, Repr

/-- Source `POST /checkout` handler.  The generated order number
(`generateOrderNumber`: date prefix plus random suffix) is passed in as
`orderNumber`.  The `orders.orderNumber` column is `unique`, so inserting a
colliding number raises a database error; the handler has no try/catch, so
that surfaces as `internalDbError` through the global error handler. -/
def checkout (db : Db) (userId : Nat) (shippingAddress : String) (orderNumber : String) :
    Db × Except ApiError OrderView :=
  match findCartByUser db userId with
  | none => (db, .error .cartNotFoundCheckout)
  | some cart =>
    let joined := joinedItems db cart.id
    if joined.isEmpty then (db, .error .cartEmpty)
    else
      match joined.find? (fun ip => ip.2.stockQuantity < ip.1.quantity) with
      | some ip =>
          (db, .error (.insufficientStockCheckout ip.2.name ip.2.stockQuantity ip.1.quantity))
      | none =>
        if db.orders.any (fun o => o.orderNumber == orderNumber) then
          (db, .error .internalDbError)
        else
          let order : Order :=
            { id := db.nextOrderId, userId := some userId, orderNumber := orderNumber,
              totalAmount := checkoutTotal joined, status := .pending,
              shippingAddress := some shippingAddress }
          let db1 := { db with orders := db.orders ++ [order], nextOrderId := db.nextOrderId + 1 }
          let db2 := insertOrderItems db1 order.id joined
          let db3 := decrementStocks db2 joined
          let db4 := { db3 with
            orderStatusHistory := db3.orderStatusHistory ++
              [{ id := db3.nextStatusId, orderId := order.id, status := .pending,
                 notes := some "Order created" }],
            nextStatusId := db3.nextStatusId + 1 }
          let db5 := deleteCartItemsOfCart db4 cart.id
          (db5, .ok
            { id := order.id, orderNumber := orderNumber, status := .pending,
              totalAmount := order.totalAmount, shippingAddress := shippingAddress,
              items := orderItemsOfOrder db5 order.id,
              statusHistory := statusHistoryOfOrder db5 order.id })

/-! ### Order reads (orders routes, src/unnamed/part_003) -/

/-- The order detail view of `GET /orders/:id` (product join fields
reduced to the snapshot columns the claims mention). -/
structure OrderDetail where
  id : Nat
  orderNumber : String
  status : OrderStatus
  totalAmount : Rat
  items : List OrderItem
  statusHistory : List StatusEvent
deriving DecidableEq, Repr

/-- Source `GET /orders/:id` handler: absent order answers 404
`Order not found`; an order of a different owner answers 403
`Forbidden: Access denied`. -/
def getOrderDetail (db : Db) (userId : Nat) (orderId : Nat) : Db × Except ApiError OrderDetail :=
  match findOrder db orderId with
  | none => (db, .error .orderNotFound)
  | some order =>
    if order.userId != some userId then (db, .error .forbidden)
    else
      (db, .ok
        { id := order.id, orderNumber := order.orderNumber, status := order.status,
          totalAmount := order.totalAmount, items := orderItemsOfOrder db orderId,
          statusHistory := statusHistoryOfOrder db orderId })

/-- Source `GET /orders/:id/status` handler: same existence and ownership
checks, answering the status timeline. -/
def getOrderStatusTimeline (db : Db) (userId : Nat) (orderId : Nat) :
    Db × Except ApiError (List StatusEvent) :=
  match findOrder db orderId with
  | none => (db, .error .orderNotFound)
  | some order =>
    if order.userId != some userId then (db, .error .forbidden)
    else (db, .ok (statusHistoryOfOrder db orderId))

/-! ### Login and cart merge (auth routes of src/src/routes/auth.ts)

The login handler has no try/catch around the merge block, so a thrown
database error propagates to Hono's `onError` and the client gets a 500
instead of a token.  To state claims about that behaviour the database
calls of the login flow are numbered in execution order, and `failAt`
injects a thrown error at that call (`none` = no call fails). -/

/-- JWT signing (`signJWT` of the jwt utils) modelled as a pure encoding
of the payload. -/
def signJWT (sub email role : String) : String :=
  "jwt." ++ sub ++ "." ++ email ++ "." ++ role

/-- Fault oracle: database call number `k` throws exactly when
`failAt = some k`. -/
def isFault (failAt : Option Nat) (k : Nat) : Bool := failAt == some k

/-- The merge loop of the login handler: for each guest line, re-read the
user cart's line for that product (one call) and either update its
quantity to the sum or insert the guest line (one call).  Returns the
store, the next call number, and whether a call threw. -/
def mergeGuestItems (failAt : Option Nat) (userCartId : Nat) :
    List CartItem → Db → Nat → Db × Nat × Bool
  | [], db, k => (db, k, false)
  | item :: rest, db, k =>
    if isFault failAt k then (db, k, true)
    else
      match findCartItemByProduct db userCartId item.productId with
      | some existing =>
          if isFault failAt (k + 1) then (db, k + 1, true)
          else
            mergeGuestItems failAt userCartId rest
              (updateCartItemQty db existing.id (existing.quantity + item.quantity)) (k + 2)
      | none =>
          if isFault failAt (k + 1) then (db, k + 1, true)
          else
            mergeGuestItems failAt userCartId rest
              (insertCartItem db userCartId item.productId item.quantity).1 (k + 2)

/-- Tail of the merge block: run the merge loop, then delete the guest
cart's lines and the guest cart row (one call each), then sign the token. -/
def finishMerge (failAt : Option Nat) (db : Db) (guestCartId userCartId : Nat)
    (guestItems : List CartItem) (k : Nat) (token : String) : Db × Except ApiError String :=
  match mergeGuestItems failAt userCartId guestItems db k with
  | (dbp, _, true) => (dbp, .error .internalDbError)
  | (dbp, kp, false) =>
    if isFault failAt kp then (dbp, .error .internalDbError)
    else
      let dbd := deleteCartItemsOfCart dbp guestCartId
      if isFault failAt (kp + 1) then (dbd, .error .internalDbError)
      else (deleteCart dbd guestCartId, .ok token)

/-- Source `POST /auth/login` handler: credential check, then — when the
client supplied a session id naming a guest cart with lines — the cart
merge, then the JWT.  `comparePassword` is the external bcrypt
collaborator.  Call numbers: 0 user lookup, 1 guest-cart lookup, 2 guest
lines read, 3 user-cart lookup, 4 user-cart insert (only when absent),
then the merge loop and the two guest deletions. -/
def login (db : Db) (email password : String) (sessionId : Option String)
    (comparePassword : String → String → Bool) (failAt : Option Nat) :
    Db × Except ApiError String :=
  if isFault failAt 0 then (db, .error .internalDbError)
  else
    match findUserByEmail db email with
    | none => (db, .error .invalidCredentials)
    | some user =>
      if !(comparePassword password user.passwordHash) then (db, .error .invalidCredentials)
      else
        let token := signJWT (toString user.id) user.email user.role
        match sessionId with
        | none => (db, .ok token)
        | some sid =>
          if isFault failAt 1 then (db, .error .internalDbError)
          else
            match findGuestCart db sid with
            | none => (db, .ok token)
            | some guestCart =>
              if isFault failAt 2 then (db, .error .internalDbError)
              else
                let guestItems := itemsOfCart db guestCart.id
                if guestItems.isEmpty then (db, .ok token)
                else
                  if isFault failAt 3 then (db, .error .internalDbError)
                  else
                    match findCartByUser db user.id with
                    | some userCart =>
                        finishMerge failAt db guestCart.id userCart.id guestItems 4 token
                    | none =>
                        if isFault failAt 4 then (db, .error .internalDbError)
                        else
                          let created := insertCart db (some user.id) none
                          finishMerge failAt created.1 guestCart.id created.2.id guestItems 5 token

/-! ### General lemmas about the row-level primitives -/

/-- Predicate used by each cart handler to look its cart up. -/
def matchesIdentity : Identity → Cart → Bool
  | .user uid, c => c.userId == some uid
  | .session sid, c => c.sessionId == some sid

/-- The cart row `getOrCreateCart` inserts for a given identity. -/
def identityCartRow (db : Db) : Identity → Cart
  | .user uid => { id := db.nextCartId, userId := some uid, sessionId := none }
  | .session sid => { id := db.nextCartId, userId := none, sessionId := some sid }

theorem findCartByIdentity_eq_find? (db : Db) (ident : Identity) :
    findCartByIdentity db ident = db.carts.find? (matchesIdentity ident) := by
  cases ident <;> rfl

theorem getOrCreateCart_found (db : Db) (ident : Identity) (cart : Cart)
    (h : findCartByIdentity db ident = some cart) :
    getOrCreateCart db ident = (db, cart) := by
  cases ident with
  | user uid =>
      simp only [findCartByIdentity] at h
      simp only [getOrCreateCart, h]
  | session sid =>
      simp only [findCartByIdentity] at h
      simp only [getOrCreateCart, h]

theorem getOrCreateCart_notFound (db : Db) (ident : Identity)
    (h : findCartByIdentity db ident = none) :
    getOrCreateCart db ident =
      ({ db with carts := db.carts ++ [identityCartRow db ident],
                 nextCartId := db.nextCartId + 1 }, identityCartRow db ident) := by
  cases ident with
  | user uid =>
      simp only [findCartByIdentity] at h
      simp only [getOrCreateCart, h, insertCart, identityCartRow]
  | session sid =>
      simp only [findCartByIdentity] at h
      simp only [getOrCreateCart, h, insertCart, identityCartRow]

theorem find?_map_preserving {α : Type} (p : α → Bool) (f : α → α)
    (h : ∀ a, p (f a) = p a) :
    ∀ l : List α, (l.map f).find? p = (l.find? p).map f := by
  intro l
  induction l with
  | nil => rfl
  | cons a t ih =>
      cases hpa : p a with
      | true =>
          rw [List.map_cons, List.find?_cons_of_pos _ (by rw [h a]; exact hpa),
              List.find?_cons_of_pos _ hpa, Option.map_some']
      | false =>
          rw [List.map_cons, List.find?_cons_of_neg _ (by simp [h a, hpa]),
              List.find?_cons_of_neg _ (by simp [hpa]), ih]

theorem filter_map_preserving {α : Type} (p : α → Bool) (f : α → α)
    (h : ∀ a, p (f a) = p a) :
    ∀ l : List α, (l.map f).filter p = (l.filter p).map f := by
  intro l
  induction l with
  | nil => rfl
  | cons a t ih =>
      cases hpa : p a with
      | true =>
          rw [List.map_cons, List.filter_cons_of_pos (by rw [h a]; exact hpa),
              List.filter_cons_of_pos hpa, List.map_cons, ih]
      | false =>
          rw [List.map_cons, List.filter_cons_of_neg (by rw [h a]; simp [hpa]),
              List.filter_cons_of_neg (by simp [hpa]), ih]

/-! ### Claim C7: reading another user's order -/

/-- Example store for C7: one order owned by user 1. -/
def c7Db : Db :=
  { users := [], products := [], carts := [], cartItems := [],
    orders := [{ id := 1, userId := some 1, orderNumber := "ORD-20260101-0001",
                 totalAmount := 10, status := .pending, shippingAddress := none }],
    orderItems := [], orderStatusHistory := [],
    nextCartId := 1, nextCartItemId := 1, nextOrderId := 2, nextOrderItemId := 1,
    nextStatusId := 1 }

/-- Counterexample to C7: user 2 reading the existing order 1 of user 1
gets `Forbidden: Access denied` (403), not the `Order not found` (404)
answered for an absent order, on both order-read endpoints. -/
theorem order_not_owned_counterexample :
    getOrderDetail c7Db 2 1 = (c7Db, .error .forbidden) ∧
    getOrderStatusTimeline c7Db 2 1 = (c7Db, .error .forbidden) ∧
    ApiError.forbidden ≠ ApiError.orderNotFound ∧
    ApiError.httpStatus .forbidden = 403 ∧
    ApiError.httpStatus .orderNotFound = 404 :=
  ⟨rfl, rfl, by decide, rfl, rfl⟩

/-- Claim C7 (amended): an order-detail or status-history request naming an
order that exists but belongs to a different user answers `Forbidden`
(403), while an order that does not exist answers `Order not found` (404);
the two error kinds are distinct. -/
theorem order_not_owned_forbidden (db : Db) (uid oid : Nat) :
    (∀ order, findOrder db oid = some order → order.userId ≠ some uid →
      getOrderDetail db uid oid = (db, .error .forbidden) ∧
      getOrderStatusTimeline db uid oid = (db, .error .forbidden)) ∧
    (findOrder db oid = none →
      getOrderDetail db uid oid = (db, .error .orderNotFound) ∧
      getOrderStatusTimeline db uid oid = (db, .error .orderNotFound)) := by
  constructor
  · intro order hfind hown
    have hb : (order.userId != some uid) = true := by
      simp [bne_iff_ne, hown]
    constructor
    · simp [getOrderDetail, hfind, hb]
    · simp [getOrderStatusTimeline, hfind, hb]
  · intro hfind
    constructor
    · simp [getOrderDetail, hfind]
    · simp [getOrderStatusTimeline, hfind]

/-- Witness for C7's amended theorem at the concrete store. -/
theorem order_not_owned_forbidden_witness :
    getOrderDetail c7Db 2 1 = (c7Db, .error .forbidden) ∧
    getOrderStatusTimeline c7Db 2 1 = (c7Db, .error .forbidden) :=
  (order_not_owned_forbidden c7Db 2 1).1
    { id := 1, userId := some 1, orderNumber := "ORD-20260101-0001",
      totalAmount := 10, status := .pending, shippingAddress := none }
    (by decide) (by decide)

/-! ### Claim C8: clear-cart is idempotent -/

/-- At most one cart row matches the identity (the invariant the handlers
maintain; there is no database unique constraint on `carts.userId` or
`carts.sessionId`). -/
def atMostOneCartFor (db : Db) (ident : Identity) : Prop :=
  ∀ c1 ∈ db.carts, ∀ c2 ∈ db.carts,
    matchesIdentity ident c1 = true → matchesIdentity ident c2 = true → c1.id = c2.id

instance (db : Db) (ident : Identity) : Decidable (atMostOneCartFor db ident) :=
  inferInstanceAs (Decidable (∀ c1 ∈ db.carts, ∀ c2 ∈ db.carts,
    matchesIdentity ident c1 = true → matchesIdentity ident c2 = true → c1.id = c2.id))

theorem clearCart_of_none (db : Db) (ident : Identity)
    (h : findCartByIdentity db ident = none) :
    clearCart db ident = (db, emptyCartView) := by
  unfold clearCart
  rw [h]

theorem clearCart_of_some (db : Db) (ident : Identity) (cart : Cart)
    (h : findCartByIdentity db ident = some cart) :
    clearCart db ident =
      (deleteCart (deleteCartItemsOfCart db cart.id) cart.id, emptyCartView) := by
  unfold clearCart
  rw [h]

/-- Claim C8: clear always answers the empty cart view and never errors;
when a cart exists its lines and the cart row are deleted, and a second
clear is a no-op with the same result. -/
theorem clear_cart_empty_view_idempotent (db : Db) (ident : Identity)
    (huniq : atMostOneCartFor db ident) :
    (clearCart db ident).2 = emptyCartView ∧
    clearCart (clearCart db ident).1 ident = ((clearCart db ident).1, emptyCartView) ∧
    (∀ cart, findCartByIdentity db ident = some cart →
      itemsOfCart (clearCart db ident).1 cart.id = [] ∧
      ∀ c ∈ (clearCart db ident).1.carts, c.id ≠ cart.id) := by
  cases hfind : findCartByIdentity db ident with
  | none =>
      rw [clearCart_of_none db ident hfind]
      refine ⟨rfl, by rw [clearCart_of_none db ident hfind], ?_⟩
      intro cart hc
      exact absurd hc (by simp)
  | some c0 =>
      have hfind' : db.carts.find? (matchesIdentity ident) = some c0 := by
        rw [← findCartByIdentity_eq_find?]
        exact hfind
      have hmem0 : c0 ∈ db.carts := List.mem_of_find?_eq_some hfind'
      have hmatch0 : matchesIdentity ident c0 = true := List.find?_some hfind'
      have hstate : (clearCart db ident).1 =
          deleteCart (deleteCartItemsOfCart db c0.id) c0.id := by
        rw [clearCart_of_some db ident c0 hfind]
      have hnone : findCartByIdentity (clearCart db ident).1 ident = none := by
        rw [hstate, findCartByIdentity_eq_find?]
        apply List.find?_eq_none.mpr
        intro c hc
        have hc' := List.mem_filter.mp hc
        intro hm
        have hid : c.id = c0.id := huniq c hc'.1 c0 hmem0 hm hmatch0
        simp [hid] at hc'
      refine ⟨by rw [clearCart_of_some db ident c0 hfind],
              by rw [clearCart_of_none _ ident hnone], ?_⟩
      intro cart hcart
      cases hcart
      constructor
      · rw [hstate]
        apply List.filter_eq_nil_iff.mpr
        intro i hi
        have hi' := List.mem_filter.mp hi
        simp at hi' ⊢
        exact hi'.2
      · intro c hc
        rw [hstate] at hc
        have hc' := List.mem_filter.mp hc
        simp at hc'
        exact hc'.2

/-- Example store for C8: a user cart with one line. -/
def c8Db : Db :=
  { users := [], products := [], carts := [{ id := 1, userId := some 7, sessionId := none }],
    cartItems := [{ id := 1, cartId := 1, productId := 3, quantity := 2 }],
    orders := [], orderItems := [], orderStatusHistory := [],
    nextCartId := 2, nextCartItemId := 2, nextOrderId := 1, nextOrderItemId := 1,
    nextStatusId := 1 }

/-- Witness for C8 at the concrete store. -/
theorem clear_cart_empty_view_idempotent_witness :
    atMostOneCartFor c8Db (Identity.user 7) ∧
    (clearCart c8Db (Identity.user 7)).2 = emptyCartView ∧
    clearCart (clearCart c8Db (Identity.user 7)).1 (Identity.user 7) =
      ((clearCart c8Db (Identity.user 7)).1, emptyCartView) :=
  ⟨by decide,
   (clear_cart_empty_view_idempotent c8Db (Identity.user 7) (by decide)).1,
   (clear_cart_empty_view_idempotent c8Db (Identity.user 7) (by decide)).2.1⟩

/-! ### Claim C10: update/remove with no cart create a cart row before 404 -/

/-- Claim C10: an update or remove request from a caller with no cart first
creates a fresh empty cart row for the caller's identity (via
`getOrCreateCart`) and then answers `Cart item not found`: the error path
grows the cart table by one row. -/
theorem update_remove_no_cart_creates_row (db : Db) (ident : Identity)
    (itemId : Nat) (q : Int)
    (hnone : findCartByIdentity db ident = none)
    (hfresh : ∀ i ∈ db.cartItems, i.cartId ≠ db.nextCartId) :
    updateCartItem db ident itemId q =
      ({ db with carts := db.carts ++ [identityCartRow db ident],
                 nextCartId := db.nextCartId + 1 }, .error .cartItemNotFound) ∧
    removeCartItem db ident itemId =
      ({ db with carts := db.carts ++ [identityCartRow db ident],
                 nextCartId := db.nextCartId + 1 }, .error .cartItemNotFound) := by
  have hins := getOrCreateCart_notFound db ident hnone
  have hrow : (identityCartRow db ident).id = db.nextCartId := by
    cases ident <;> rfl
  have hitem : findCartItemByIdAndCart
      { db with carts := db.carts ++ [identityCartRow db ident],
                nextCartId := db.nextCartId + 1 } itemId (identityCartRow db ident).id
        = none := by
    apply List.find?_eq_none.mpr
    intro i hi
    simp only [Bool.and_eq_true, beq_iff_eq, hrow, not_and]
    intro _ h
    exact hfresh i hi h
  constructor
  · simp only [updateCartItem, hins, hitem]
  · simp only [removeCartItem, hins, hitem]

/-- Example store for C10: no cart at all for the session caller. -/
def c10Db : Db :=
  { users := [], products := [], carts := [], cartItems := [],
    orders := [], orderItems := [], orderStatusHistory := [],
    nextCartId := 1, nextCartItemId := 1, nextOrderId := 1, nextOrderItemId := 1,
    nextStatusId := 1 }

/-- Witness for C10 at the concrete store. -/
theorem update_remove_no_cart_creates_row_witness :
    updateCartItem c10Db (Identity.session "s") 5 2 =
      ({ c10Db with carts := c10Db.carts ++ [identityCartRow c10Db (Identity.session "s")],
                    nextCartId := c10Db.nextCartId + 1 }, .error .cartItemNotFound) ∧
    removeCartItem c10Db (Identity.session "s") 5 =
      ({ c10Db with carts := c10Db.carts ++ [identityCartRow c10Db (Identity.session "s")],
                    nextCartId := c10Db.nextCartId + 1 }, .error .cartItemNotFound) :=
  update_remove_no_cart_creates_row c10Db (Identity.session "s") 5 2
    (by decide) (by decide)

/-! ### Claim C1: checkout aborts on insufficient stock with no write -/

/-- Claim C1: on a non-empty cart with some line exceeding its product's
stock, checkout answers `InsufficientStock` naming the offending product
with the available and requested quantities, and returns the store
unchanged: no stock, cart, order, order-line or status row is written. -/
theorem checkout_insufficient_stock_aborts (db : Db) (uid : Nat) (addr num : String)
    (cart : Cart)
    (hcart : findCartByUser db uid = some cart)
    (hbad : ∃ ip ∈ joinedItems db cart.id, ip.2.stockQuantity < ip.1.quantity) :
    ∃ ip ∈ joinedItems db cart.id,
      ip.2.stockQuantity < ip.1.quantity ∧
      checkout db uid addr num =
        (db, .error (.insufficientStockCheckout ip.2.name ip.2.stockQuantity ip.1.quantity)) := by
  have hne : (joinedItems db cart.id).isEmpty = false := by
    rcases hbad with ⟨ip, hmem, -⟩
    cases hj : joinedItems db cart.id
    · rw [hj] at hmem
      exact absurd hmem (by simp)
    · rfl
  have hsome : ((joinedItems db cart.id).find?
      (fun ip => decide (ip.2.stockQuantity < ip.1.quantity))).isSome := by
    rcases hbad with ⟨ip, hmem, hlt⟩
    exact List.find?_isSome.mpr ⟨ip, hmem, by simpa using hlt⟩
  rcases Option.isSome_iff_exists.mp hsome with ⟨ip0, hfind⟩
  refine ⟨ip0, List.mem_of_find?_eq_some hfind, by simpa using List.find?_some hfind, ?_⟩
  simp only [checkout, hcart, hne, Bool.false_eq_true, if_false, hfind]

/-- Example store for C1, the spec's own test vector: product A
(stock 5, price 10.00) with quantity 2 and product B (stock 0) with
quantity 1 in the cart of user 1. -/
def c1Db : Db :=
  { users := [], products := [{ id := 1, name := "Product A", price := 10, stockQuantity := 5 },
                              { id := 2, name := "Product B", price := 20, stockQuantity := 0 }],
    carts := [{ id := 1, userId := some 1, sessionId := none }],
    cartItems := [{ id := 1, cartId := 1, productId := 1, quantity := 2 },
                  { id := 2, cartId := 1, productId := 2, quantity := 1 }],
    orders := [], orderItems := [], orderStatusHistory := [],
    nextCartId := 2, nextCartItemId := 3, nextOrderId := 1, nextOrderItemId := 1,
    nextStatusId := 1 }

/-- Witness for C1: checkout fails naming product B, available 0,
requested 1, and the store is unchanged. -/
theorem checkout_insufficient_stock_aborts_witness :
    ∃ ip ∈ joinedItems c1Db 1,
      ip.2.stockQuantity < ip.1.quantity ∧
      checkout c1Db 1 "5 Main St" "ORD-20260101-0001" =
        (c1Db, .error (.insufficientStockCheckout ip.2.name ip.2.stockQuantity ip.1.quantity)) :=
  checkout_insufficient_stock_aborts c1Db 1 "5 Main St" "ORD-20260101-0001"
    { id := 1, userId := some 1, sessionId := none } (by decide)
    ⟨({ id := 2, cartId := 1, productId := 2, quantity := 1 },
      { id := 2, name := "Product B", price := 20, stockQuantity := 0 }),
     by decide, by decide⟩

/-! ### Claim C6: order-number collision -/

/-- Example store for C6: a checkout-ready cart of user 1 and an existing
order already carrying the number the generator is about to produce. -/
def c6Db : Db :=
  { users := [], products := [{ id := 1, name := "Widget", price := 10, stockQuantity := 5 }],
    carts := [{ id := 1, userId := some 1, sessionId := none }],
    cartItems := [{ id := 1, cartId := 1, productId := 1, quantity := 1 }],
    orders := [{ id := 1, userId := some 1, orderNumber := "ORD-20260101-1234",
                 totalAmount := 10, status := .pending, shippingAddress := none }],
    orderItems := [], orderStatusHistory := [],
    nextCartId := 2, nextCartItemId := 2, nextOrderId := 2, nextOrderItemId := 1,
    nextStatusId := 1 }

/-- Counterexample to C6: on a collision checkout neither retries with a
fresh number nor answers `Conflict` (409) — the unique-constraint
violation surfaces as the uncaught-exception 500 response. -/
theorem checkout_collision_counterexample :
    checkout c6Db 1 "5 Main St" "ORD-20260101-1234" = (c6Db, .error .internalDbError) ∧
    ApiError.httpStatus .internalDbError = 500 ∧
    ApiError.httpStatus .internalDbError ≠ 409 :=
  ⟨rfl, rfl, by decide⟩

/-- Claim C6 (amended): when the generated order number collides with an
existing order's number, the order insert fails on the unique constraint
and checkout answers the internal 500 error — no retry, no `Conflict` —
and the store is returned unchanged, so no corrupted or partially
written order is left behind. -/
theorem checkout_collision_internal_no_write (db : Db) (uid : Nat) (addr num : String)
    (cart : Cart)
    (hcart : findCartByUser db uid = some cart)
    (hne : joinedItems db cart.id ≠ [])
    (hstock : ∀ ip ∈ joinedItems db cart.id, ip.1.quantity ≤ ip.2.stockQuantity)
    (hcol : ∃ o ∈ db.orders, o.orderNumber = num) :
    checkout db uid addr num = (db, .error .internalDbError) := by
  have hje : (joinedItems db cart.id).isEmpty = false := by
    cases hj : joinedItems db cart.id
    · exact absurd hj hne
    · rfl
  have hfind : (joinedItems db cart.id).find?
      (fun ip => decide (ip.2.stockQuantity < ip.1.quantity)) = none := by
    apply List.find?_eq_none.mpr
    intro ip hip
    simpa using not_lt.mpr (hstock ip hip)
  have hany : (db.orders.any (fun o => o.orderNumber == num)) = true := by
    rcases hcol with ⟨o, ho, hn⟩
    exact List.any_eq_true.mpr ⟨o, ho, by simp [hn]⟩
  simp only [checkout, hcart, hje, Bool.false_eq_true, if_false, hfind, hany, if_true]

/-- Witness for C6's amended theorem at the concrete store. -/
theorem checkout_collision_internal_no_write_witness :
    checkout c6Db 1 "5 Main St" "ORD-20260101-1234" = (c6Db, .error .internalDbError) :=
  checkout_collision_internal_no_write c6Db 1 "5 Main St" "ORD-20260101-1234"
    { id := 1, userId := some 1, sessionId := none }
    (by decide) (by decide) (by decide)
    ⟨{ id := 1, userId := some 1, orderNumber := "ORD-20260101-1234",
       totalAmount := 10, status := .pending, shippingAddress := none },
     by decide, by decide⟩

/-! ### Claim C3: adding to an existing cart line -/

/-- Claim C3: with an existing line of quantity `q1` for the product, an
add of `q2` succeeds exactly when `q1 + q2` is at most the current stock;
on success the existing line's quantity becomes the sum and no second
line is created; otherwise the store is unchanged and an
insufficient-stock error is answered. -/
theorem add_to_cart_existing_line_spec (db : Db) (ident : Identity) (pid : Nat) (q2 : Int)
    (product : Product) (cart : Cart) (existing : CartItem)
    (hprod : findProduct db pid = some product)
    (hcart : findCartByIdentity db ident = some cart)
    (hex : findCartItemByProduct db cart.id pid = some existing)
    (hq1 : 0 ≤ existing.quantity) :
    ((∃ v, (addToCart db ident pid q2).2 = .ok v) ↔
        existing.quantity + q2 ≤ product.stockQuantity) ∧
    (existing.quantity + q2 ≤ product.stockQuantity →
      addToCart db ident pid q2 =
        (updateCartItemQty db existing.id (existing.quantity + q2),
         .ok (buildCartResponse
                (updateCartItemQty db existing.id (existing.quantity + q2)) cart.id)) ∧
      findCartItemByProduct (updateCartItemQty db existing.id (existing.quantity + q2))
          cart.id pid = some { existing with quantity := existing.quantity + q2 } ∧
      (updateCartItemQty db existing.id (existing.quantity + q2)).cartItems.length
          = db.cartItems.length) ∧
    (product.stockQuantity < existing.quantity + q2 →
      (addToCart db ident pid q2).1 = db ∧
      ((addToCart db ident pid q2).2 = .error .insufficientStock ∨
       (addToCart db ident pid q2).2 = .error .insufficientStockCombined)) := by
  have hcartEq := getOrCreateCart_found db ident cart hcart
  by_cases hle : existing.quantity + q2 ≤ product.stockQuantity
  · have hnot1 : ¬ product.stockQuantity < q2 := by omega
    have hnot2 : ¬ product.stockQuantity < existing.quantity + q2 := not_lt.mpr hle
    have heval : addToCart db ident pid q2 =
        (updateCartItemQty db existing.id (existing.quantity + q2),
         .ok (buildCartResponse
                (updateCartItemQty db existing.id (existing.quantity + q2)) cart.id)) := by
      simp only [addToCart, hprod, if_neg hnot1, hcartEq, hex, if_neg hnot2]
    refine ⟨⟨fun _ => hle, fun _ => ⟨_, by rw [heval]⟩⟩, fun _ => ⟨heval, ?_, ?_⟩,
            fun hgt => absurd hle (not_le.mpr hgt)⟩
    · have hpres : ∀ a : CartItem,
          ((fun i => i.cartId == cart.id && i.productId == pid)
            (if a.id == existing.id then { a with quantity := existing.quantity + q2 } else a))
          = (fun i => i.cartId == cart.id && i.productId == pid) a := by
        intro a
        by_cases h : (a.id == existing.id) = true <;> simp [h]
      have := find?_map_preserving
        (fun i => i.cartId == cart.id && i.productId == pid)
        (fun a => if a.id == existing.id then { a with quantity := existing.quantity + q2 } else a)
        hpres db.cartItems
      unfold findCartItemByProduct at hex ⊢
      unfold updateCartItemQty
      simp only [this, hex, Option.map_some']
      simp
    · simp [updateCartItemQty]
  · have hgt : product.stockQuantity < existing.quantity + q2 := not_le.mp hle
    have herr : (addToCart db ident pid q2).1 = db ∧
        ((addToCart db ident pid q2).2 = .error .insufficientStock ∨
         (addToCart db ident pid q2).2 = .error .insufficientStockCombined) := by
      by_cases hq2 : product.stockQuantity < q2
      · constructor
        · simp only [addToCart, hprod, if_pos hq2]
        · left
          simp only [addToCart, hprod, if_pos hq2]
      · constructor
        · simp only [addToCart, hprod, if_neg hq2, hcartEq, hex, if_pos hgt]
        · right
          simp only [addToCart, hprod, if_neg hq2, hcartEq, hex, if_pos hgt]
    refine ⟨⟨?_, fun h => absurd h hle⟩, fun h => absurd h hle, fun _ => herr⟩
    rintro ⟨v, hv⟩
    rcases herr.2 with h | h <;> rw [h] at hv <;> cases hv

/-- Example store for C3: product 1 with stock 5 and a cart of user 1
already holding quantity 2 of it. -/
def c3Db : Db :=
  { users := [], products := [{ id := 1, name := "P", price := 10, stockQuantity := 5 }],
    carts := [{ id := 1, userId := some 1, sessionId := none }],
    cartItems := [{ id := 1, cartId := 1, productId := 1, quantity := 2 }],
    orders := [], orderItems := [], orderStatusHistory := [],
    nextCartId := 2, nextCartItemId := 2, nextOrderId := 1, nextOrderItemId := 1,
    nextStatusId := 1 }

/-- Witness for C3: adding 2 to the existing quantity 2 with stock 5
succeeds, adding 7 leaves the store unchanged. -/
theorem add_to_cart_existing_line_spec_witness :
    (∃ v, (addToCart c3Db (Identity.user 1) 1 2).2 = .ok v) ∧
    (addToCart c3Db (Identity.user 1) 1 7).1 = c3Db :=
  ⟨(add_to_cart_existing_line_spec c3Db (Identity.user 1) 1 2
      { id := 1, name := "P", price := 10, stockQuantity := 5 }
      { id := 1, userId := some 1, sessionId := none }
      { id := 1, cartId := 1, productId := 1, quantity := 2 }
      (by decide) (by decide) (by decide) (by decide)).1.mpr (by decide),
   ((add_to_cart_existing_line_spec c3Db (Identity.user 1) 1 7
      { id := 1, name := "P", price := 10, stockQuantity := 5 }
      { id := 1, userId := some 1, sessionId := none }
      { id := 1, cartId := 1, productId := 1, quantity := 2 }
      (by decide) (by decide) (by decide) (by decide)).2.2 (by decide)).1⟩

/-! ### Claim C2: helper lemmas for the checkout success path -/

theorem foldl_add_map_sum {α : Type} (g : α → Rat) (l : List α) (a : Rat) :
    l.foldl (fun s x => s + g x) a = a + (l.map g).sum := by
  induction l generalizing a with
  | nil => simp
  | cons x t ih => simp [ih, add_assoc]

theorem checkoutTotal_eq_sum (l : List (CartItem × Product)) :
    checkoutTotal l = (l.map (fun ip => ip.2.price * (ip.1.quantity : Rat))).sum := by
  unfold checkoutTotal
  rw [foldl_add_map_sum, zero_add]

/-- The stock-update loop only rewrites the `products` table. -/
theorem decrementStocks_eq_products_update (l : List (CartItem × Product)) (db : Db) :
    decrementStocks db l = { db with products := (decrementStocks db l).products } := by
  induction l generalizing db with
  | nil => rfl
  | cons ip t ih =>
      show decrementStocks (setProductStock db ip.2.id (ip.2.stockQuantity - ip.1.quantity)) t = _
      rw [ih (setProductStock db ip.2.id (ip.2.stockQuantity - ip.1.quantity))]
      rfl

/-- The per-product effect of the stock-update loop on one product row. -/
def stockAdjust (joined : List (CartItem × Product)) (p : Product) : Product :=
  match joined.find? (fun ip => ip.2.id == p.id) with
  | some ip => { p with stockQuantity := ip.2.stockQuantity - ip.1.quantity }
  | none => p

theorem stockAdjust_id (joined : List (CartItem × Product)) (p : Product) :
    (stockAdjust joined p).id = p.id := by
  unfold stockAdjust
  split <;> rfl

/-- With pairwise-distinct product ids in the joined list, the stock-update
loop maps every product row through `stockAdjust`. -/
theorem decrementStocks_products (l : List (CartItem × Product)) (db : Db)
    (hnd : (l.map (fun ip => ip.2.id)).Nodup) :
    (decrementStocks db l).products = db.products.map (stockAdjust l) := by
  induction l generalizing db with
  | nil =>
      show db.products = db.products.map (stockAdjust [])
      have h2 : db.products.map (stockAdjust []) = db.products := by
        calc db.products.map (stockAdjust [])
            = db.products.map id := List.map_congr_left (fun p _ => rfl)
          _ = db.products := List.map_id _
      exact h2.symm
  | cons ip t ih =>
      show (decrementStocks (setProductStock db ip.2.id (ip.2.stockQuantity - ip.1.quantity)) t).products = _
      rw [ih _ (List.nodup_cons.mp hnd).2]
      show (db.products.map _).map (stockAdjust t) = _
      rw [List.map_map]
      apply List.map_congr_left
      intro p _
      by_cases hpe : p.id = ip.2.id
      · have hnone : t.find? (fun x => x.2.id == p.id) = none := by
          apply List.find?_eq_none.mpr
          intro x hx
          simp only [beq_iff_eq]
          intro hcontra
          exact (List.nodup_cons.mp hnd).1
            (List.mem_map.mpr ⟨x, hx, hcontra.trans hpe⟩)
        show stockAdjust t (if (p.id == ip.2.id) = true then _ else p) = stockAdjust (ip :: t) p
        rw [if_pos (by simp [hpe])]
        unfold stockAdjust
        rw [List.find?_cons_of_pos _ (by simp [hpe]), show ({ p with stockQuantity := ip.2.stockQuantity - ip.1.quantity } : Product).id = p.id from rfl, hnone]
      · have hne1 : ((p.id == ip.2.id) = true) → False := by simp [hpe]
        show stockAdjust t (if (p.id == ip.2.id) = true then _ else p) = stockAdjust (ip :: t) p
        rw [if_neg hne1]
        unfold stockAdjust
        rw [List.find?_cons_of_neg _ (by simp [Ne.symm hpe])]

/-- Every joined pair is the cart line paired with its own product row. -/
theorem joinedItems_spec (db : Db) (cid : Nat) (ip : CartItem × Product)
    (h : ip ∈ joinedItems db cid) :
    findProduct db ip.2.id = some ip.2 ∧ ip.2.id = ip.1.productId := by
  rcases List.mem_filterMap.mp h with ⟨i, hi, heq⟩
  rcases Option.map_eq_some'.mp heq with ⟨p, hp, hpair⟩
  cases hpair
  have hid : p.id = i.productId := by
    simpa using List.find?_some hp
  constructor
  · show findProduct db p.id = some p
    unfold findProduct at hp ⊢
    rw [hid]
    exact hp
  · exact hid

theorem filterMap_pair_fst_sublist {α β : Type} (g : α → Option β) (l : List α) :
    ((l.filterMap (fun a => (g a).map (fun b => (a, b)))).map Prod.fst).Sublist l := by
  induction l with
  | nil => simp
  | cons a t ih =>
      rw [List.filterMap_cons]
      cases hga : g a
      · exact ih.cons a
      · rw [Option.map_some', List.map_cons]
        exact ih.cons₂ a

theorem nodup_productIds_of_pairs (cid : Nat) :
    ∀ l : List CartItem, (l.map (fun i => (i.cartId, i.productId))).Nodup →
      (∀ i ∈ l, i.cartId = cid) → (l.map (fun i => i.productId)).Nodup := by
  intro l
  induction l with
  | nil => intro _ _; simp
  | cons a t ih =>
      intro hnd hall
      rw [List.map_cons, List.nodup_cons]
      constructor
      · intro hmem
        rcases List.mem_map.mp hmem with ⟨x, hx, hxe⟩
        apply (List.nodup_cons.mp hnd).1
        refine List.mem_map.mpr ⟨x, hx, ?_⟩
        simp only [hall x (List.mem_cons_of_mem a hx), hall a (List.mem_cons_self a t), hxe]
      · exact ih (List.nodup_cons.mp hnd).2
          (fun i hi => hall i (List.mem_cons_of_mem a hi))

/-- The `(cart, product)` unique constraint gives distinct product ids in
the checkout join. -/
theorem joinedItems_pid_nodup (db : Db) (cid : Nat)
    (hpairs : (db.cartItems.map (fun i => (i.cartId, i.productId))).Nodup) :
    ((joinedItems db cid).map (fun ip => ip.2.id)).Nodup := by
  have hsub : ((itemsOfCart db cid).map (fun i => (i.cartId, i.productId))).Sublist
      (db.cartItems.map (fun i => (i.cartId, i.productId))) :=
    (List.filter_sublist _).map _
  have hitems : ((itemsOfCart db cid).map (fun i => i.productId)).Nodup := by
    apply nodup_productIds_of_pairs cid _ (hpairs.sublist hsub)
    intro i hi
    simpa using (List.mem_filter.mp hi).2
  have hmapeq : (joinedItems db cid).map (fun ip => ip.2.id)
      = ((joinedItems db cid).map Prod.fst).map (fun i => i.productId) := by
    rw [List.map_map]
    apply List.map_congr_left
    intro ip hip
    exact (joinedItems_spec db cid ip hip).2
  rw [hmapeq]
  exact hitems.sublist ((filterMap_pair_fst_sublist _ _).map _)

/-- In a list with pairwise-distinct keys, searching a member's key finds
that member. -/
theorem find?_key_eq_of_nodup {α : Type} (key : α → Nat) (l : List α)
    (hnd : (l.map key).Nodup) (a : α) (ha : a ∈ l) :
    l.find? (fun x => key x == key a) = some a := by
  induction l with
  | nil => cases ha
  | cons b t ih =>
      rcases List.mem_cons.mp ha with rfl | hat
      · exact List.find?_cons_of_pos _ (by simp)
      · have hne : key b ≠ key a := by
          intro hc
          exact (List.nodup_cons.mp hnd).1 (hc ▸ List.mem_map.mpr ⟨a, hat, rfl⟩)
        rw [List.find?_cons_of_neg _ (by simp [hne]), ih (List.nodup_cons.mp hnd).2 hat]

/-- Claim C2: on a non-empty cart in which every line is within stock (and
a fresh generated order number), checkout creates exactly one pending
order totalling the sum of price times quantity over the lines, one
order-line snapshot per cart line (product id, name, quantity, unit price
now), decrements each product's stock by the purchased quantity, deletes
all lines of the source cart, and appends exactly one pending status
event noted "Order created". -/
theorem checkout_success_effects (db : Db) (uid : Nat) (addr num : String) (cart : Cart)
    (hcart : findCartByUser db uid = some cart)
    (hne : joinedItems db cart.id ≠ [])
    (hstock : ∀ ip ∈ joinedItems db cart.id, ip.1.quantity ≤ ip.2.stockQuantity)
    (hnum : ∀ o ∈ db.orders, o.orderNumber ≠ num)
    (hpairs : (db.cartItems.map (fun i => (i.cartId, i.productId))).Nodup) :
    (∃ v, (checkout db uid addr num).2 = .ok v) ∧
    (checkout db uid addr num).1.orders =
      db.orders ++
        [{ id := db.nextOrderId, userId := some uid, orderNumber := num,
           totalAmount := ((joinedItems db cart.id).map
             (fun ip => ip.2.price * (ip.1.quantity : Rat))).sum,
           status := .pending, shippingAddress := some addr }] ∧
    (checkout db uid addr num).1.orderItems =
      db.orderItems ++ (joinedItems db cart.id).mapIdx (fun k ip =>
        { id := db.nextOrderItemId + k, orderId := db.nextOrderId, productId := some ip.2.id,
          quantity := ip.1.quantity, priceAtTime := ip.2.price,
          productName := some ip.2.name }) ∧
    (∀ ip ∈ joinedItems db cart.id,
      findProduct (checkout db uid addr num).1 ip.2.id =
        some { ip.2 with stockQuantity := ip.2.stockQuantity - ip.1.quantity }) ∧
    (checkout db uid addr num).1.cartItems =
      db.cartItems.filter (fun i => !(i.cartId == cart.id)) ∧
    (checkout db uid addr num).1.orderStatusHistory =
      db.orderStatusHistory ++
        [{ id := db.nextStatusId, orderId := db.nextOrderId,
           status := .pending, notes := some "Order created" }] := by
  have hje : (joinedItems db cart.id).isEmpty = false := by
    cases hj : joinedItems db cart.id
    · exact absurd hj hne
    · rfl
  have hfind : (joinedItems db cart.id).find?
      (fun ip => decide (ip.2.stockQuantity < ip.1.quantity)) = none := by
    apply List.find?_eq_none.mpr
    intro ip hip
    simpa using not_lt.mpr (hstock ip hip)
  have hany : (db.orders.any (fun o => o.orderNumber == num)) = false := by
    rw [List.any_eq_false]
    intro o ho
    simpa using hnum o ho
  refine ⟨?_, ?_, ?_, ?_, ?_, ?_⟩
  · simp only [checkout, hcart, hje, Bool.false_eq_true, if_false, hfind, hany]
    exact ⟨_, rfl⟩
  · simp only [checkout, hcart, hje, Bool.false_eq_true, if_false, hfind, hany]
    rw [decrementStocks_eq_products_update]
    simp only [deleteCartItemsOfCart, insertOrderItems]
    rw [checkoutTotal_eq_sum]
  · simp only [checkout, hcart, hje, Bool.false_eq_true, if_false, hfind, hany]
    rw [decrementStocks_eq_products_update]
    simp only [deleteCartItemsOfCart, insertOrderItems]
  · intro ip hip
    have hnd := joinedItems_pid_nodup db cart.id hpairs
    have hfp : findProduct db ip.2.id = some ip.2 := (joinedItems_spec db cart.id ip hip).1
    simp only [checkout, hcart, hje, Bool.false_eq_true, if_false, hfind, hany]
    unfold findProduct at hfp ⊢
    simp only [deleteCartItemsOfCart]
    rw [decrementStocks_products _ _ hnd]
    simp only [insertOrderItems]
    rw [find?_map_preserving (fun x => x.id == ip.2.id)
          (stockAdjust (joinedItems db cart.id))
          (fun a => by simp [stockAdjust_id]) db.products,
        hfp, Option.map_some']
    unfold stockAdjust
    rw [find?_key_eq_of_nodup (fun x => x.2.id) (joinedItems db cart.id) hnd ip hip]
  · simp only [checkout, hcart, hje, Bool.false_eq_true, if_false, hfind, hany]
    rw [decrementStocks_eq_products_update]
    simp only [deleteCartItemsOfCart, insertOrderItems]
  · simp only [checkout, hcart, hje, Bool.false_eq_true, if_false, hfind, hany]
    rw [decrementStocks_eq_products_update]
    simp only [deleteCartItemsOfCart, insertOrderItems]

/-- Example store for C2, the spec's own test vector: product A (price
10.00, stock 5) with quantity 2 and product C (price 5.00, stock 10) with
quantity 3 in the cart of user 1. -/
def c2Db : Db :=
  { users := [],
    products := [{ id := 1, name := "Product A", price := 10, stockQuantity := 5 },
                 { id := 3, name := "Product C", price := 5, stockQuantity := 10 }],
    carts := [{ id := 1, userId := some 1, sessionId := none }],
    cartItems := [{ id := 1, cartId := 1, productId := 1, quantity := 2 },
                  { id := 2, cartId := 1, productId := 3, quantity := 3 }],
    orders := [], orderItems := [], orderStatusHistory := [],
    nextCartId := 2, nextCartItemId := 3, nextOrderId := 1, nextOrderItemId := 1,
    nextStatusId := 1 }

/-- Witness for C2 at the concrete store; the order total is 35.00. -/
theorem checkout_success_effects_witness :
    (∃ v, (checkout c2Db 1 "5 Main St" "ORD-20260101-0002").2 = .ok v) ∧
    (checkout c2Db 1 "5 Main St" "ORD-20260101-0002").1.orders =
      c2Db.orders ++
        [{ id := c2Db.nextOrderId, userId := some 1, orderNumber := "ORD-20260101-0002",
           totalAmount := ((joinedItems c2Db 1).map
             (fun ip => ip.2.price * (ip.1.quantity : Rat))).sum,
           status := .pending, shippingAddress := some "5 Main St" }] ∧
    ((joinedItems c2Db 1).map (fun ip => ip.2.price * (ip.1.quantity : Rat))).sum = 35 := by
  have h := checkout_success_effects c2Db 1 "5 Main St" "ORD-20260101-0002"
    { id := 1, userId := some 1, sessionId := none }
    (by decide) (by decide) (by decide) (by decide) (by decide)
  refine ⟨h.1, h.2.1, ?_⟩
  show ((joinedItems c2Db 1).map (fun ip => ip.2.price * (ip.1.quantity : Rat))).sum = 35
  simp [joinedItems, itemsOfCart, findProduct, c2Db]
  norm_num

/-! ### Claim C9: cart identity invariant -/

/-- Exactly one identity is populated: a user id with a null session
token, or a session token with a null user id. -/
def identityOk (c : Cart) : Prop :=
  (c.userId ≠ none ∧ c.sessionId = none) ∨ (c.userId = none ∧ c.sessionId ≠ none)

instance (c : Cart) : Decidable (identityOk c) :=
  inferInstanceAs (Decidable (_ ∨ _))

/-- Every cart row of the second store is a verbatim row of the first
(identity fields untouched) or a freshly inserted row with exactly one
identity. -/
def cartSafeStep (db db2 : Db) : Prop :=
  ∀ c ∈ db2.carts, c ∈ db.carts ∨ identityOk c

theorem identityOk_identityCartRow (db : Db) (ident : Identity) :
    identityOk (identityCartRow db ident) := by
  cases ident
  · exact .inl ⟨by simp [identityCartRow], rfl⟩
  · exact .inr ⟨rfl, by simp [identityCartRow]⟩

theorem getOrCreateCart_cartSafe (db : Db) (ident : Identity) :
    cartSafeStep db (getOrCreateCart db ident).1 := by
  cases hf : findCartByIdentity db ident
  · rw [getOrCreateCart_notFound db ident hf]
    intro c hc
    rcases List.mem_append.mp hc with h | h
    · exact .inl h
    · have hcr : c = identityCartRow db ident := List.mem_singleton.mp h
      exact .inr (hcr ▸ identityOk_identityCartRow db ident)
  · rw [getOrCreateCart_found db ident _ hf]
    exact fun c hc => .inl hc

theorem addToCart_carts (db : Db) (ident : Identity) (pid : Nat) (q : Int) :
    (addToCart db ident pid q).1.carts = db.carts ∨
    (addToCart db ident pid q).1.carts = db.carts ++ [identityCartRow db ident] := by
  have hg : (getOrCreateCart db ident).1.carts = db.carts ∨
      (getOrCreateCart db ident).1.carts = db.carts ++ [identityCartRow db ident] := by
    cases hf : findCartByIdentity db ident
    · right
      rw [getOrCreateCart_notFound db ident hf]
    · left
      rw [getOrCreateCart_found db ident _ hf]
  unfold addToCart
  rcases hpr : getOrCreateCart db ident with ⟨db1, cart⟩
  rw [hpr] at hg
  dsimp only at hg ⊢
  repeat' split
  all_goals first
    | (left; rfl)
    | exact hg
    | simpa [updateCartItemQty] using hg
    | simpa [insertCartItem] using hg

theorem updateCartItem_carts (db : Db) (ident : Identity) (itemId : Nat) (q : Int) :
    (updateCartItem db ident itemId q).1.carts = (getOrCreateCart db ident).1.carts := by
  unfold updateCartItem
  rcases hpr : getOrCreateCart db ident with ⟨db1, cart⟩
  dsimp only
  repeat' split
  all_goals first
    | rfl
    | simp [updateCartItemQty]

theorem removeCartItem_carts (db : Db) (ident : Identity) (itemId : Nat) :
    (removeCartItem db ident itemId).1.carts = (getOrCreateCart db ident).1.carts := by
  unfold removeCartItem
  rcases hpr : getOrCreateCart db ident with ⟨db1, cart⟩
  dsimp only
  repeat' split
  all_goals first
    | rfl
    | simp [deleteCartItemById]

theorem clearCart_cartSafe (db : Db) (ident : Identity) :
    cartSafeStep db (clearCart db ident).1 := by
  cases hf : findCartByIdentity db ident
  · rw [clearCart_of_none db ident hf]
    exact fun c hc => .inl hc
  · rw [clearCart_of_some db ident _ hf]
    intro c hc
    exact .inl (List.mem_filter.mp hc).1

theorem checkout_carts (db : Db) (uid : Nat) (addr num : String) :
    (checkout db uid addr num).1.carts = db.carts := by
  unfold checkout
  repeat' (first | split | dsimp only)
  all_goals try rfl
  all_goals
    rw [decrementStocks_eq_products_update]
    simp [deleteCartItemsOfCart, insertOrderItems]

theorem mergeGuestItems_carts (failAt : Option Nat) (u : Nat) :
    ∀ (gs : List CartItem) (db : Db) (k : Nat),
      (mergeGuestItems failAt u gs db k).1.carts = db.carts := by
  intro gs
  induction gs with
  | nil => intro db k; rfl
  | cons item rest ih =>
      intro db k
      unfold mergeGuestItems
      repeat' split
      all_goals first
        | rfl
        | (rw [ih]; rfl)

theorem finishMerge_carts (failAt : Option Nat) (db : Db) (g u : Nat)
    (gs : List CartItem) (k : Nat) (tok : String) :
    (finishMerge failAt db g u gs k tok).1.carts = db.carts ∨
    (finishMerge failAt db g u gs k tok).1.carts =
      db.carts.filter (fun c => !(c.id == g)) := by
  unfold finishMerge
  rcases hm : mergeGuestItems failAt u gs db k with ⟨dbp, kp, flag⟩
  have hc : dbp.carts = db.carts := by
    have h2 := mergeGuestItems_carts failAt u gs db k
    rw [hm] at h2
    exact h2
  cases flag
  · dsimp only
    repeat' split
    all_goals first
      | (left; exact hc)
      | (left; simpa [deleteCartItemsOfCart] using hc)
      | (right; simp [deleteCart, deleteCartItemsOfCart, hc])
  · dsimp only
    left
    exact hc

/-- The tail of the merge block only removes cart rows or keeps the base
store's rows, given the base store relates to the original one. -/
theorem finishMerge_cartSafe (failAt : Option Nat) (dbin db : Db) (g u : Nat)
    (gs : List CartItem) (k : Nat) (tok : String)
    (hbase : ∀ c ∈ dbin.carts, c ∈ db.carts ∨ identityOk c) :
    ∀ c ∈ (finishMerge failAt dbin g u gs k tok).1.carts, c ∈ db.carts ∨ identityOk c := by
  intro c hc
  rcases finishMerge_carts failAt dbin g u gs k tok with h | h
  · rw [h] at hc
    exact hbase c hc
  · rw [h] at hc
    exact hbase c (List.mem_filter.mp hc).1

theorem login_cartSafe (db : Db) (email pw : String) (sid : Option String)
    (cmp : String → String → Bool) (failAt : Option Nat) :
    cartSafeStep db (login db email pw sid cmp failAt).1 := by
  unfold login
  repeat' (first | split | dsimp only)
  all_goals intro c hc
  all_goals first
    | exact .inl hc
    | exact finishMerge_cartSafe _ _ _ _ _ _ _ _ (fun c2 hc2 => .inl hc2) c hc
    | exact finishMerge_cartSafe _ _ _ _ _ _ _ _
        (fun c2 hc2 => by
          rcases List.mem_append.mp hc2 with h2 | h2
          · exact .inl h2
          · have hcr := List.mem_singleton.mp h2
            exact .inr (hcr ▸ Or.inl ⟨by simp, rfl⟩)) c hc

/-- Claim C9: every cart row produced by any modelled operation (cart
resolution, the cart mutations, clear, checkout, and login with its
merge, under any fault) has exactly one identity populated, and existing
rows pass through operations verbatim, so a cart with neither identity is
never constructed. -/
theorem cart_identity_invariant (db : Db) (ident : Identity) (pid itemId uid : Nat)
    (q : Int) (addr num email pw : String) (sid : Option String)
    (cmp : String → String → Bool) (failAt : Option Nat)
    (hok : ∀ c ∈ db.carts, identityOk c) :
    (∀ c ∈ (getOrCreateCart db ident).1.carts, identityOk c) ∧
    identityOk (getOrCreateCart db ident).2 ∧
    (∀ c ∈ (addToCart db ident pid q).1.carts, identityOk c) ∧
    (∀ c ∈ (updateCartItem db ident itemId q).1.carts, identityOk c) ∧
    (∀ c ∈ (removeCartItem db ident itemId).1.carts, identityOk c) ∧
    (∀ c ∈ (clearCart db ident).1.carts, identityOk c) ∧
    (∀ c ∈ (checkout db uid addr num).1.carts, identityOk c) ∧
    (∀ c ∈ (login db email pw sid cmp failAt).1.carts, identityOk c) := by
  have hstepOk : ∀ db2 : Db, cartSafeStep db db2 → ∀ c ∈ db2.carts, identityOk c :=
    fun db2 h c hc => (h c hc).elim (hok c) id
  have hgocc := hstepOk _ (getOrCreateCart_cartSafe db ident)
  refine ⟨hgocc, ?_, ?_, ?_, ?_, hstepOk _ (clearCart_cartSafe db ident), ?_,
          hstepOk _ (login_cartSafe db email pw sid cmp failAt)⟩
  · cases hf : findCartByIdentity db ident
    · rw [getOrCreateCart_notFound db ident hf]
      exact identityOk_identityCartRow db ident
    · rw [getOrCreateCart_found db ident _ hf]
      refine hok _ (List.mem_of_find?_eq_some (p := matchesIdentity ident) ?_)
      rw [← findCartByIdentity_eq_find?]
      exact hf
  · intro c hc
    rcases addToCart_carts db ident pid q with h | h
    · rw [h] at hc
      exact hok c hc
    · rw [h] at hc
      rcases List.mem_append.mp hc with h2 | h2
      · exact hok c h2
      · have hcr : c = identityCartRow db ident := List.mem_singleton.mp h2
        exact hcr ▸ identityOk_identityCartRow db ident
  · intro c hc
    rw [updateCartItem_carts] at hc
    exact hgocc c hc
  · intro c hc
    rw [removeCartItem_carts] at hc
    exact hgocc c hc
  · intro c hc
    rw [checkout_carts] at hc
    exact hok c hc

/-- Example store for C9: a guest cart with a line, and a user so that a
login with the session id exercises the merge. -/
def c9Db : Db :=
  { users := [{ id := 1, email := "u@example.com", passwordHash := "pw", role := "customer" }],
    products := [{ id := 1, name := "P", price := 10, stockQuantity := 5 }],
    carts := [{ id := 1, userId := none, sessionId := some "s" }],
    cartItems := [{ id := 1, cartId := 1, productId := 1, quantity := 2 }],
    orders := [], orderItems := [], orderStatusHistory := [],
    nextCartId := 2, nextCartItemId := 2, nextOrderId := 1, nextOrderItemId := 1,
    nextStatusId := 1 }

/-- Witness for C9 at the concrete store. -/
theorem cart_identity_invariant_witness :
    (∀ c ∈ (getOrCreateCart c9Db (Identity.session "s")).1.carts, identityOk c) ∧
    (∀ c ∈ (login c9Db "u@example.com" "pw" (some "s")
        (fun p h => p == h) none).1.carts, identityOk c) :=
  ⟨(cart_identity_invariant c9Db (Identity.session "s") 1 1 1 1 "a" "n"
      "u@example.com" "pw" (some "s") (fun p h => p == h) none (by decide)).1,
   (cart_identity_invariant c9Db (Identity.session "s") 1 1 1 1 "a" "n"
      "u@example.com" "pw" (some "s") (fun p h => p == h) none
      (by decide)).2.2.2.2.2.2.2⟩

/-! ### Claim C5: a merge error aborts login -/

theorem isFault_none (m : Nat) : isFault none m = false := rfl

/-- With no injected fault the merge loop never aborts. -/
theorem mergeGuestItems_none_ok (u : Nat) :
    ∀ (gs : List CartItem) (db : Db) (k : Nat),
      (mergeGuestItems none u gs db k).2.2 = false := by
  intro gs
  induction gs with
  | nil => intro db k; rfl
  | cons item rest ih =>
      intro db k
      unfold mergeGuestItems
      simp only [isFault_none, Bool.false_eq_true, if_false]
      split
      · exact ih _ _
      · exact ih _ _

/-- With no injected fault the merge tail deletes the guest rows and
signs the token. -/
theorem finishMerge_none_eval (db : Db) (g u : Nat) (gs : List CartItem)
    (k : Nat) (tok : String) :
    finishMerge none db g u gs k tok =
      (deleteCart (deleteCartItemsOfCart (mergeGuestItems none u gs db k).1 g) g,
       .ok tok) := by
  unfold finishMerge
  rcases hm : mergeGuestItems none u gs db k with ⟨dbp, kp, flag⟩
  have h0 := mergeGuestItems_none_ok u gs db k
  rw [hm] at h0
  dsimp only at h0
  subst h0
  dsimp only
  simp [isFault_none, hm]

/-- With valid credentials and no fault, login always answers the signed
token. -/
theorem login_none_ok (db : Db) (email pw : String) (sid : Option String)
    (cmp : String → String → Bool) (user : UserRow)
    (huser : findUserByEmail db email = some user)
    (hpw : cmp pw user.passwordHash = true) :
    (login db email pw sid cmp none).2
      = .ok (signJWT (toString user.id) user.email user.role) := by
  unfold login
  simp only [isFault_none, Bool.false_eq_true, if_false, huser, hpw, Bool.not_true]
  cases sid
  · rfl
  · case some s =>
    cases hg : findGuestCart db s
    · simp [hg]
    · case some gc =>
      simp only [hg]
      cases he : (itemsOfCart db gc.id).isEmpty
      · simp only [he, Bool.false_eq_true, if_false]
        cases hu : findCartByUser db user.id
        · simp only [hu, finishMerge_none_eval]
        · simp only [hu, finishMerge_none_eval]
      · simp [he]

/-- Claim C5 (amended): the login handler has no try/catch around the
merge block, so a database error raised during the merge step aborts the
login — the client receives the Internal (500) error and no token; only
a fault-free run (or one with no merge to do) answers a token. -/
theorem login_merge_error_aborts (db : Db) (email pw sid : String)
    (cmp : String → String → Bool) (user : UserRow)
    (huser : findUserByEmail db email = some user)
    (hpw : cmp pw user.passwordHash = true) :
    (login db email pw (some sid) cmp (some 1)).2 = .error .internalDbError ∧
    (∃ t, (login db email pw (some sid) cmp none).2 = .ok t) := by
  constructor
  · unfold login
    have h0 : isFault (some 1) 0 = false := rfl
    have h1 : isFault (some 1) 1 = true := rfl
    simp [h0, h1, huser, hpw]
  · exact ⟨_, login_none_ok db email pw (some sid) cmp user huser hpw⟩

/-- Example store for C5: a registered user and a guest cart with one
line under session token "s". -/
def c5Db : Db :=
  { users := [{ id := 1, email := "u@example.com", passwordHash := "pw", role := "customer" }],
    products := [{ id := 1, name := "P", price := 10, stockQuantity := 5 }],
    carts := [{ id := 1, userId := none, sessionId := some "s" }],
    cartItems := [{ id := 1, cartId := 1, productId := 1, quantity := 2 }],
    orders := [], orderItems := [], orderStatusHistory := [],
    nextCartId := 2, nextCartItemId := 2, nextOrderId := 1, nextOrderItemId := 1,
    nextStatusId := 1 }

/-- Counterexample to C5: with valid credentials and a guest cart to
merge, a database error at the first merge-loop call (call number 5: the
re-read of the user cart's line) makes login answer the Internal error
instead of a token, while the identical fault-free login answers a token
— so a merge error does abort login. -/
theorem login_merge_error_aborts_counterexample :
    findUserByEmail c5Db "u@example.com" =
      some { id := 1, email := "u@example.com", passwordHash := "pw", role := "customer" } ∧
    (login c5Db "u@example.com" "pw" (some "s") (fun p h => p == h) (some 5)).2
      = .error .internalDbError ∧
    (login c5Db "u@example.com" "pw" (some "s") (fun p h => p == h) none).2
      = .ok (signJWT "1" "u@example.com" "customer") :=
  ⟨rfl, rfl, rfl⟩

/-- Witness for C5's amended theorem at the concrete store. -/
theorem login_merge_error_aborts_witness :
    (login c5Db "u@example.com" "pw" (some "s") (fun p h => p == h) (some 1)).2
      = .error .internalDbError ∧
    (∃ t, (login c5Db "u@example.com" "pw" (some "s") (fun p h => p == h) none).2 = .ok t) :=
  login_merge_error_aborts c5Db "u@example.com" "pw" "s" (fun p h => p == h)
    { id := 1, email := "u@example.com", passwordHash := "pw", role := "customer" }
    (by decide) (by decide)

/-! ### Claim C4: merge-on-login sums quantities -/

/-- The cart lines of cart `cid` for product `pid`. -/
def linesFor (items : List CartItem) (cid pid : Nat) : List CartItem :=
  items.filter (fun i => i.cartId == cid && i.productId == pid)

/-- Total quantity cart `cid` holds of product `pid`. -/
def qtyIn (items : List CartItem) (cid pid : Nat) : Int :=
  ((linesFor items cid pid).map CartItem.quantity).sum

/-- Quantity of product `pid` among the lines `gs`. -/
def sumQtyFor (gs : List CartItem) (pid : Nat) : Int :=
  ((gs.filter (fun i => i.productId == pid)).map CartItem.quantity).sum

/-- Line-id uniqueness plus serial-counter freshness for cart lines. -/
def itemsWF (db : Db) : Prop :=
  (db.cartItems.map CartItem.id).Nodup ∧ ∀ i ∈ db.cartItems, i.id < db.nextCartItemId

theorem sumQtyFor_cons (x : CartItem) (gs : List CartItem) (pid : Nat) :
    sumQtyFor (x :: gs) pid =
      (if (x.productId == pid) = true then x.quantity else 0) + sumQtyFor gs pid := by
  unfold sumQtyFor
  cases h : x.productId == pid
  · rw [List.filter_cons_of_neg (by simp [h]), if_neg (by simp [h])]
    omega
  · rw [List.filter_cons_of_pos (by simp [h]), if_pos rfl, List.map_cons, List.sum_cons]

theorem sumQtyFor_itemsOfCart (db : Db) (g pid : Nat) :
    sumQtyFor (itemsOfCart db g) pid = qtyIn db.cartItems g pid := by
  unfold sumQtyFor qtyIn itemsOfCart linesFor
  rw [List.filter_filter]
  congr 1
  congr 1
  apply List.filter_congr
  intro i _
  exact Bool.and_comm _ _

theorem itemsWF_update (db : Db) (itemId : Nat) (q : Int) (h : itemsWF db) :
    itemsWF (updateCartItemQty db itemId q) := by
  constructor
  · have hmap : (updateCartItemQty db itemId q).cartItems.map CartItem.id
        = db.cartItems.map CartItem.id := by
      unfold updateCartItemQty
      rw [List.map_map]
      apply List.map_congr_left
      intro i _
      by_cases hi : i.id = itemId <;> simp [hi]
    rw [hmap]
    exact h.1
  · intro i hi
    rcases List.mem_map.mp hi with ⟨j, hj, hje⟩
    have hq := h.2 j hj
    subst hje
    have hid : (if (j.id == itemId) = true then ({ j with quantity := q } : CartItem)
        else j).id = j.id := by
      by_cases hjid : j.id = itemId <;> simp [hjid]
    show (if (j.id == itemId) = true then ({ j with quantity := q } : CartItem)
        else j).id < db.nextCartItemId
    rw [hid]
    exact hq

theorem itemsWF_insert (db : Db) (cid pid : Nat) (q : Int) (h : itemsWF db) :
    itemsWF (insertCartItem db cid pid q).1 := by
  constructor
  · show ((db.cartItems ++
      [({ id := db.nextCartItemId, cartId := cid, productId := pid, quantity := q } : CartItem)]).map
        CartItem.id).Nodup
    rw [List.map_append, List.nodup_append]
    refine ⟨h.1, List.nodup_singleton _, ?_⟩
    intro a ha hb
    simp only [List.map_cons, List.map_nil, List.mem_singleton] at hb
    subst hb
    rcases List.mem_map.mp ha with ⟨j, hj, hje⟩
    have hlt := h.2 j hj
    rw [hje] at hlt
    omega
  · intro i hi
    show i.id < db.nextCartItemId + 1
    rcases List.mem_append.mp hi with h2 | h2
    · have := h.2 i h2
      omega
    · have he : i = { id := db.nextCartItemId, cartId := cid, productId := pid, quantity := q } :=
        List.mem_singleton.mp h2
      rw [he]
      show db.nextCartItemId < db.nextCartItemId + 1
      omega

theorem sum_quantity_map_update (l : List CartItem) (e : CartItem) (q' : Int)
    (hnd : (l.map CartItem.id).Nodup) (he : e ∈ l) :
    ((l.map (fun i => if i.id == e.id then { i with quantity := q' } else i)).map
        CartItem.quantity).sum
      = (l.map CartItem.quantity).sum - e.quantity + q' := by
  induction l with
  | nil => cases he
  | cons a t ih =>
      rcases List.mem_cons.mp he with rfl | hat
      · have htail : ∀ i ∈ t,
            (fun i => if i.id == e.id then ({ i with quantity := q' } : CartItem) else i) i
              = i := by
          intro i hi
          have hne : i.id ≠ e.id := by
            intro hc
            exact (List.nodup_cons.mp hnd).1 (List.mem_map.mpr ⟨i, hi, hc⟩)
          simp [hne]
        rw [List.map_cons, List.map_congr_left htail, List.map_id']
        simp only [beq_self_eq_true, if_true, List.map_cons, List.sum_cons]
        ring
      · have hane : (a.id == e.id) = false := by
          simp only [beq_eq_false_iff_ne, ne_eq]
          intro hc
          apply (List.nodup_cons.mp hnd).1
          rw [hc]
          exact List.mem_map.mpr ⟨e, hat, rfl⟩
        rw [List.map_cons, hane]
        simp only [Bool.false_eq_true, if_false, List.map_cons, List.sum_cons]
        rw [ih (List.nodup_cons.mp hnd).2 hat]
        ring

theorem qtyIn_update (db : Db) (e : CartItem) (d : Int) (u pid : Nat)
    (hnd : (db.cartItems.map CartItem.id).Nodup) (he : e ∈ db.cartItems) :
    qtyIn (updateCartItemQty db e.id (e.quantity + d)).cartItems u pid
      = qtyIn db.cartItems u pid
        + (if (e.cartId == u && e.productId == pid) = true then d else 0) := by
  unfold qtyIn linesFor updateCartItemQty
  dsimp only
  rw [filter_map_preserving (fun i => i.cartId == u && i.productId == pid)
        (fun i => if i.id == e.id then { i with quantity := e.quantity + d } else i)
        (fun a => by by_cases h : a.id = e.id <;> simp [h]) db.cartItems]
  by_cases hpe : (e.cartId == u && e.productId == pid) = true
  · have hef : e ∈ db.cartItems.filter (fun i => i.cartId == u && i.productId == pid) :=
      List.mem_filter.mpr ⟨he, hpe⟩
    have hndf : ((db.cartItems.filter
        (fun i => i.cartId == u && i.productId == pid)).map CartItem.id).Nodup :=
      hnd.sublist ((List.filter_sublist _).map _)
    rw [sum_quantity_map_update _ e (e.quantity + d) hndf hef, if_pos hpe]
    ring
  · have hfix : ∀ i ∈ db.cartItems.filter (fun i => i.cartId == u && i.productId == pid),
        (fun i => if i.id == e.id then ({ i with quantity := e.quantity + d } : CartItem)
          else i) i = i := by
      intro i hi
      have hip := List.mem_filter.mp hi
      have hne : i.id ≠ e.id := by
        intro hc
        have hieq : i = e := List.inj_on_of_nodup_map hnd hip.1 he hc
        rw [hieq] at hip
        exact hpe hip.2
      simp [hne]
    rw [List.map_congr_left hfix, List.map_id', if_neg hpe]
    ring

theorem qtyIn_insert (db : Db) (cid2 pid2 : Nat) (q : Int) (u pid : Nat) :
    qtyIn (insertCartItem db cid2 pid2 q).1.cartItems u pid
      = qtyIn db.cartItems u pid
        + (if (cid2 == u && pid2 == pid) = true then q else 0) := by
  show qtyIn (db.cartItems ++
      [({ id := db.nextCartItemId, cartId := cid2, productId := pid2, quantity := q } :
        CartItem)]) u pid = _
  unfold qtyIn linesFor
  rw [List.filter_append, List.map_append, List.sum_append]
  cases h : (cid2 == u && pid2 == pid) <;> simp [List.filter_cons, h]

/-- Pairwise uniqueness of the `(cart, product)` pairs (the database
unique constraint `unique_cart_item`). -/
def pairsNodup (db : Db) : Prop :=
  (db.cartItems.map (fun i => (i.cartId, i.productId))).Nodup

theorem pairsNodup_update (db : Db) (itemId : Nat) (q : Int) (h : pairsNodup db) :
    pairsNodup (updateCartItemQty db itemId q) := by
  unfold pairsNodup updateCartItemQty at *
  dsimp only
  rw [List.map_map]
  have hfix : ∀ i ∈ db.cartItems,
      ((fun i => ((i.cartId, i.productId) : Nat × Nat)) ∘
        (fun i => if i.id == itemId then { i with quantity := q } else i)) i
        = (i.cartId, i.productId) := by
    intro i _
    by_cases hi : i.id = itemId <;> simp [Function.comp, hi]
  rw [List.map_congr_left hfix]
  exact h

theorem pairsNodup_insert (db : Db) (u pid : Nat) (q : Int)
    (hf : findCartItemByProduct db u pid = none) (h : pairsNodup db) :
    pairsNodup (insertCartItem db u pid q).1 := by
  show ((db.cartItems ++
      [({ id := db.nextCartItemId, cartId := u, productId := pid, quantity := q } :
        CartItem)]).map (fun i => (i.cartId, i.productId))).Nodup
  rw [List.map_append, List.nodup_append]
  refine ⟨h, List.nodup_singleton _, ?_⟩
  intro a ha hb
  simp only [List.map_cons, List.map_nil, List.mem_singleton] at hb
  subst hb
  rcases List.mem_map.mp ha with ⟨j, hj, hje⟩
  have hnot := List.find?_eq_none.mp hf j hj
  apply hnot
  have hje2 : j.cartId = u ∧ j.productId = pid := by
    have := congrArg Prod.fst hje
    have := congrArg Prod.snd hje
    constructor <;> assumption
  simp [hje2.1, hje2.2]

theorem linesFor_length_le_one (items : List CartItem) (u pid : Nat)
    (h : (items.map (fun i => (i.cartId, i.productId))).Nodup) :
    (linesFor items u pid).length ≤ 1 := by
  rcases hl : linesFor items u pid with _ | ⟨a, _ | ⟨b, t⟩⟩
  · simp
  · simp
  · exfalso
    have hsubn : ((linesFor items u pid).map (fun i => (i.cartId, i.productId))).Nodup :=
      h.sublist ((List.filter_sublist _).map _)
    rw [hl] at hsubn
    have ha : a ∈ linesFor items u pid := by
      rw [hl]
      exact List.mem_cons_self _ _
    have hb : b ∈ linesFor items u pid := by
      rw [hl]
      exact List.mem_cons_of_mem _ (List.mem_cons_self _ _)
    have hpa := (List.mem_filter.mp ha).2
    have hpb := (List.mem_filter.mp hb).2
    simp only [Bool.and_eq_true, beq_iff_eq] at hpa hpb
    apply (List.nodup_cons.mp hsubn).1
    rw [List.map_cons]
    have hab : ((a.cartId, a.productId) : Nat × Nat) = (b.cartId, b.productId) := by
      rw [hpa.1, hpa.2, hpb.1, hpb.2]
    dsimp only
    rw [hab]
    exact List.mem_cons_self _ _

theorem qtyIn_filter_ne (items : List CartItem) (u g pid : Nat) (hne : u ≠ g) :
    qtyIn (items.filter (fun i => !(i.cartId == g))) u pid = qtyIn items u pid := by
  unfold qtyIn linesFor
  rw [List.filter_filter]
  congr 2
  apply List.filter_congr
  intro i _
  by_cases hcu : i.cartId = u
  · simp [hcu, hne, Ne.symm hne]
  · simp [hcu]

theorem itemsOfCart_delete_guest (dbX : Db) (g : Nat) :
    itemsOfCart (deleteCart (deleteCartItemsOfCart dbX g) g) g = [] := by
  unfold itemsOfCart deleteCart deleteCartItemsOfCart
  dsimp only
  rw [List.filter_filter]
  apply List.filter_eq_nil_iff.mpr
  intro i _
  cases hg : i.cartId == g <;> simp [hg]

/-- Effect of the fault-free merge loop: line-id/pair invariants are
preserved and, for every product, the user cart's quantity grows by the
total quantity the guest lines hold of that product. -/
theorem mergeGuestItems_effect (u : Nat) :
    ∀ (gs : List CartItem) (db : Db) (k : Nat), itemsWF db → pairsNodup db →
      itemsWF (mergeGuestItems none u gs db k).1 ∧
      pairsNodup (mergeGuestItems none u gs db k).1 ∧
      ∀ pid, qtyIn (mergeGuestItems none u gs db k).1.cartItems u pid
        = qtyIn db.cartItems u pid + sumQtyFor gs pid := by
  intro gs
  induction gs with
  | nil =>
      intro db k hwf hp
      exact ⟨hwf, hp, fun pid => by simp [sumQtyFor, mergeGuestItems]⟩
  | cons item rest ih =>
      intro db k hwf hp
      unfold mergeGuestItems
      simp only [isFault_none, Bool.false_eq_true, if_false]
      cases hf : findCartItemByProduct db u item.productId
      case none =>
        have hwf2 := itemsWF_insert db u item.productId item.quantity hwf
        have hp2 := pairsNodup_insert db u item.productId item.quantity hf hp
        obtain ⟨hwfr, hpr, hsum⟩ :=
          ih (insertCartItem db u item.productId item.quantity).1 (k + 2) hwf2 hp2
        refine ⟨hwfr, hpr, fun pid => ?_⟩
        rw [hsum pid, qtyIn_insert db u item.productId item.quantity u pid, sumQtyFor_cons]
        simp only [beq_self_eq_true, Bool.true_and]
        by_cases hpid : (item.productId == pid) = true
        · rw [if_pos hpid]
          ring
        · rw [if_neg hpid]
          ring
      case some existing =>
        have he : existing ∈ db.cartItems := List.mem_of_find?_eq_some hf
        have hpred := List.find?_some hf
        simp only [Bool.and_eq_true, beq_iff_eq] at hpred
        have hwf2 := itemsWF_update db existing.id (existing.quantity + item.quantity) hwf
        have hp2 := pairsNodup_update db existing.id (existing.quantity + item.quantity) hp
        obtain ⟨hwfr, hpr, hsum⟩ :=
          ih (updateCartItemQty db existing.id (existing.quantity + item.quantity)) (k + 2)
            hwf2 hp2
        refine ⟨hwfr, hpr, fun pid => ?_⟩
        rw [hsum pid, qtyIn_update db existing item.quantity u pid hwf.1 he, sumQtyFor_cons]
        by_cases hpid : item.productId = pid
        · rw [if_pos (by simp [hpred.1, hpred.2, hpid]), if_pos (by simp [hpid])]
          ring
        · rw [if_neg (by simp [hpred.2, hpid]), if_neg (by simp [hpid])]
          ring

theorem findGuestCart_facts (db : Db) (sid : String) (gcart : Cart)
    (h : findGuestCart db sid = some gcart) :
    gcart ∈ db.carts ∧ gcart.userId = none := by
  refine ⟨List.mem_of_find?_eq_some h, ?_⟩
  have h2 := List.find?_some h
  simp only [Bool.and_eq_true, beq_iff_eq] at h2
  exact h2.2

theorem findCartByUser_facts (db : Db) (uid : Nat) (c : Cart)
    (h : findCartByUser db uid = some c) :
    c ∈ db.carts ∧ c.userId = some uid := by
  refine ⟨List.mem_of_find?_eq_some h, ?_⟩
  have h2 := List.find?_some h
  simpa using h2

/-- Reduction of the login handler, with valid credentials and a
non-empty guest cart, to the merge tail. -/
theorem login_merge_eval (db : Db) (email pw sid : String)
    (cmp : String → String → Bool) (user : UserRow) (gcart : Cart)
    (huser : findUserByEmail db email = some user)
    (hpw : cmp pw user.passwordHash = true)
    (hguest : findGuestCart db sid = some gcart)
    (hne : (itemsOfCart db gcart.id).isEmpty = false) :
    login db email pw (some sid) cmp none =
      match findCartByUser db user.id with
      | some userCart =>
          finishMerge none db gcart.id userCart.id (itemsOfCart db gcart.id) 4
            (signJWT (toString user.id) user.email user.role)
      | none =>
          finishMerge none (insertCart db (some user.id) none).1 gcart.id
            (insertCart db (some user.id) none).2.id (itemsOfCart db gcart.id) 5
            (signJWT (toString user.id) user.email user.role) := by
  unfold login
  simp only [isFault_none, Bool.false_eq_true, if_false, huser, hpw, Bool.not_true, hguest,
             hne]

theorem delete_guest_cartItems (dbX : Db) (g : Nat) :
    (deleteCart (deleteCartItemsOfCart dbX g) g).cartItems
      = dbX.cartItems.filter (fun i => !(i.cartId == g)) := rfl

/-- Claim C4: a login supplying a session token naming a guest cart with
lines merges that cart into the user's cart — for every product the
user-cart quantity afterwards is the sum of the two carts' former
quantities, at most one line per product remains, and the guest cart's
lines and row are gone. -/
theorem login_merges_guest_cart (db : Db) (email pw sid : String)
    (cmp : String → String → Bool) (user : UserRow) (gcart : Cart)
    (huser : findUserByEmail db email = some user)
    (hpw : cmp pw user.passwordHash = true)
    (hguest : findGuestCart db sid = some gcart)
    (hitems : (itemsOfCart db gcart.id).isEmpty = false)
    (hcartIds : (db.carts.map Cart.id).Nodup)
    (hcartFresh : ∀ c ∈ db.carts, c.id < db.nextCartId)
    (hwf : itemsWF db)
    (hpairs : pairsNodup db) :
    ∃ ucid : Nat,
      (∀ c, findCartByUser db user.id = some c → ucid = c.id) ∧
      (findCartByUser db user.id = none → ucid = db.nextCartId) ∧
      (login db email pw (some sid) cmp none).2
        = .ok (signJWT (toString user.id) user.email user.role) ∧
      (∀ pid, qtyIn (login db email pw (some sid) cmp none).1.cartItems ucid pid
        = qtyIn db.cartItems ucid pid + qtyIn db.cartItems gcart.id pid) ∧
      (∀ pid,
        (linesFor (login db email pw (some sid) cmp none).1.cartItems ucid pid).length
          ≤ 1) ∧
      itemsOfCart (login db email pw (some sid) cmp none).1 gcart.id = [] ∧
      (∀ c ∈ (login db email pw (some sid) cmp none).1.carts, c.id ≠ gcart.id) := by
  have heval := login_merge_eval db email pw sid cmp user gcart huser hpw hguest hitems
  obtain ⟨hgmem, hgnone⟩ := findGuestCart_facts db sid gcart hguest
  cases hu : findCartByUser db user.id
  case none =>
    rw [hu] at heval
    dsimp only at heval
    rw [finishMerge_none_eval] at heval
    have hneq : db.nextCartId ≠ gcart.id := by
      have := hcartFresh gcart hgmem
      omega
    have hwfpre : itemsWF (insertCart db (some user.id) none).1 := hwf
    have hppre : pairsNodup (insertCart db (some user.id) none).1 := hpairs
    obtain ⟨hwfr, hpr, hsum⟩ :=
      mergeGuestItems_effect (insertCart db (some user.id) none).2.id
        (itemsOfCart db gcart.id) (insertCart db (some user.id) none).1 5 hwfpre hppre
    refine ⟨db.nextCartId, ?_, fun _ => rfl, ?_, ?_, ?_, ?_, ?_⟩
    · intro c hcc
      exact absurd hcc (by simp)
    · rw [heval]
    · intro pid
      rw [heval, delete_guest_cartItems, qtyIn_filter_ne _ _ _ _ hneq]
      have h2 := hsum pid
      rw [sumQtyFor_itemsOfCart] at h2
      exact h2
    · intro pid
      rw [heval, delete_guest_cartItems]
      apply linesFor_length_le_one
      exact hpr.sublist ((List.filter_sublist _).map _)
    · rw [heval]
      exact itemsOfCart_delete_guest _ _
    · rw [heval]
      intro c hc
      have h2 := List.mem_filter.mp hc
      simpa using h2.2
  case some userCart =>
    rw [hu] at heval
    dsimp only at heval
    rw [finishMerge_none_eval] at heval
    obtain ⟨hucmem, hucuser⟩ := findCartByUser_facts db user.id userCart hu
    have hneq : userCart.id ≠ gcart.id := by
      intro hc
      have he : userCart = gcart := List.inj_on_of_nodup_map hcartIds hucmem hgmem hc
      rw [he, hgnone] at hucuser
      cases hucuser
    obtain ⟨hwfr, hpr, hsum⟩ :=
      mergeGuestItems_effect userCart.id (itemsOfCart db gcart.id) db 4 hwf hpairs
    refine ⟨userCart.id, ?_, ?_, ?_, ?_, ?_, ?_, ?_⟩
    · intro c hcc
      cases hcc
      rfl
    · intro h2
      cases h2
    · rw [heval]
    · intro pid
      rw [heval, delete_guest_cartItems, qtyIn_filter_ne _ _ _ _ hneq]
      have h2 := hsum pid
      rw [sumQtyFor_itemsOfCart] at h2
      exact h2
    · intro pid
      rw [heval, delete_guest_cartItems]
      apply linesFor_length_le_one
      exact hpr.sublist ((List.filter_sublist _).map _)
    · rw [heval]
      exact itemsOfCart_delete_guest _ _
    · rw [heval]
      intro c hc
      have h2 := List.mem_filter.mp hc
      simpa using h2.2

/-- Example store for C4, the spec's own test vector: user 1's cart holds
quantity 2 of product 7, the guest cart under session "s" holds
quantity 3 of it. -/
def c4Db : Db :=
  { users := [{ id := 1, email := "u@example.com", passwordHash := "pw", role := "customer" }],
    products := [{ id := 7, name := "Product X", price := 10, stockQuantity := 50 }],
    carts := [{ id := 1, userId := some 1, sessionId := none },
              { id := 2, userId := none, sessionId := some "s" }],
    cartItems := [{ id := 1, cartId := 1, productId := 7, quantity := 2 },
                  { id := 2, cartId := 2, productId := 7, quantity := 3 }],
    orders := [], orderItems := [], orderStatusHistory := [],
    nextCartId := 3, nextCartItemId := 3, nextOrderId := 1, nextOrderItemId := 1,
    nextStatusId := 1 }

/-- Witness for C4: after login the user cart holds a single line of
quantity 2 + 3 = 5 for product 7 and the guest cart is gone. -/
theorem login_merges_guest_cart_witness :
    qtyIn (login c4Db "u@example.com" "pw" (some "s")
        (fun p h => p == h) none).1.cartItems 1 7 = 5 ∧
    (linesFor (login c4Db "u@example.com" "pw" (some "s")
        (fun p h => p == h) none).1.cartItems 1 7).length ≤ 1 ∧
    itemsOfCart (login c4Db "u@example.com" "pw" (some "s")
        (fun p h => p == h) none).1 2 = [] := by
  obtain ⟨ucid, ha, -, -, hqty, hlines, hempty, -⟩ :=
    login_merges_guest_cart c4Db "u@example.com" "pw" "s" (fun p h => p == h)
      { id := 1, email := "u@example.com", passwordHash := "pw", role := "customer" }
      { id := 2, userId := none, sessionId := some "s" }
      (by decide) (by decide) (by decide) (by decide) (by decide) (by decide)
      ⟨by decide, by decide⟩
      (show (c4Db.cartItems.map (fun i => (i.cartId, i.productId))).Nodup by decide)
  have hucid : ucid = 1 := ha { id := 1, userId := some 1, sessionId := none } (by decide)
  subst hucid
  refine ⟨?_, hlines 7, hempty⟩
  rw [hqty 7]
  decide
